import Mathlib

set_option linter.unusedVariables false

/-!
Verification development for the xpath-extractor locator-synthesis engine.

The JavaScript sources are shallowly embedded as total Lean functions over an
abstract document model `Doc`.  A live document supplies the tree structure
(tags, attributes, parents, children), the computed styles, and the evaluation
oracle `evalX` (the host `document.evaluate`, returning the ordered snapshot of
matching nodes, or `none` on an XPath syntax error).  JavaScript exceptions are
modelled with `Except JsErr`; code that catches them is embedded as a `match`
on the `Except` value.  Node identifiers are natural numbers assigned in
document preorder, so a parent always carries a smaller identifier than its
children; ancestor walks therefore terminate within `e + 1` steps from node
`e`, and the embeddings of the source's `while (current ...)` loops take that
bound as structural fuel.
-/

namespace XPE

/-- A JavaScript runtime exception, carrying `error.message`. -/
structure JsErr where
  msg : String
deriving Repr, DecidableEq

/-- Nodes of the live tree are identified by preorder numbers. -/
abbrev Node := Nat

/-- A single quote character, used when assembling XPath string literals. -/
def sq : String := String.singleton (Char.ofNat 39)

/-- Abstract model of the live document and of the host capabilities the
source consumes (`document.evaluate`, computed style, attributes).  The last
four fields model `getAttribute('aria-label')`, `getAttribute('title')`, the
`className.baseVal` of SVG elements, and the `href` attribute of the first
`use` descendant (`querySelector('use').getAttribute('href')`), each with the
empty string standing for an absent value. -/
structure Doc where
  tag : Node → String
  idAttr : Node → String
  className : Node → String
  typeAttr : Node → String
  roleAttr : Node → String
  href : Node → String
  display : Node → String
  visibility : Node → String
  opacity : Node → String
  rectW : Node → Nat
  rectH : Node → Nat
  textChildren : Node → List String
  parent : Node → Option Node
  children : Node → List Node
  body : Node
  evalX : String → Option (List Node)
  attrs : Node → List (String × String)
  inShadowRoot : Node → Bool
  reactMarker : Node → Bool
  vueMarker : Node → Bool
  ngMarker : Node → Bool
  ariaLabel : Node → String
  titleAttr : Node → String
  classNameBaseVal : Node → String
  firstUseHref : Node → String

/-! ### Character classes and string helpers used by the regex embeddings -/

def isLowerAlpha (c : Char) : Bool :=
  Char.ofNat 97 ≤ c && c ≤ Char.ofNat 122

def isDigitCh (c : Char) : Bool :=
  Char.ofNat 48 ≤ c && c ≤ Char.ofNat 57

def isHexLower (c : Char) : Bool :=
  isDigitCh c || (Char.ofNat 97 ≤ c && c ≤ Char.ofNat 102)

def isAlnumLower (c : Char) : Bool :=
  isLowerAlpha c || isDigitCh c

/-- Model of the JavaScript `String.prototype.split(/\s+/)`: split on maximal
whitespace runs, keeping empty boundary pieces exactly as JavaScript does.
The second argument is `some cur` while inside a token (characters reversed)
and `none` while inside a separator run whose boundary piece was emitted. -/
def splitWsGo : List Char → Option (List Char) → List String
  | [], some cur => [String.mk cur.reverse]
  | [], none => [""]
  | c :: rest, some cur =>
    if c.isWhitespace then String.mk cur.reverse :: splitWsGo rest none
    else splitWsGo rest (some (c :: cur))
  | c :: rest, none =>
    if c.isWhitespace then splitWsGo rest none
    else splitWsGo rest (some [c])

def splitWs (s : String) : List String := splitWsGo s.toList (some [])

/-- Model of `text.replace(/\s+/g, ' ')`: collapse each maximal whitespace run
to a single space.  The flag records whether the previous character belonged
to a run whose replacement space was already emitted. -/
def collapseWsGo : List Char → Bool → List Char
  | [], _ => []
  | c :: rest, inRun =>
    if c.isWhitespace then
      if inRun then collapseWsGo rest true
      else Char.ofNat 32 :: collapseWsGo rest true
    else c :: collapseWsGo rest false

def collapseWs (s : String) : String := String.mk (collapseWsGo s.toList false)

/-- ASCII lower-casing of one character (the relevant fragment of
`String.prototype.toLowerCase`). -/
def toLowerCh (c : Char) : Char :=
  if 65 ≤ c.toNat && c.toNat ≤ 90 then Char.ofNat (c.toNat + 32) else c

/-- Model of `String.prototype.toLowerCase`, structural over the character
list so that concrete instances evaluate inside the kernel. -/
def jsToLower (s : String) : String := String.mk (s.toList.map toLowerCh)

/-- Model of `String.prototype.trim`: drop whitespace from both ends. -/
def jsTrim (s : String) : String :=
  String.mk (((s.toList.dropWhile Char.isWhitespace).reverse.dropWhile
    Char.isWhitespace).reverse)

/-- Model of `String.prototype.split` with a one-character separator. -/
def splitOnChGo (sep : Char) : List Char → List Char → List String
  | [], cur => [String.mk cur.reverse]
  | c :: rest, cur =>
    if c = sep then String.mk cur.reverse :: splitOnChGo sep rest []
    else splitOnChGo sep rest (c :: cur)

def splitOnCh (sep : Char) (s : String) : List String := splitOnChGo sep s.toList []

/-! ### The three `randomPatterns` of `StrategyManager.hasRandomClasses`
(src/src/core/strategy-manager.js lines 98-102), embedded as decidable
predicates.  All three carry the `i` flag, so matching is performed on the
lower-cased token. -/

/-- Regex `^__[a-z]+-[a-z0-9-]+$` with flag `i`. -/
def randClassPat1 (s : String) : Bool :=
  match (jsToLower s).toList with
  | c1 :: c2 :: rest =>
    if c1 = Char.ofNat 95 && c2 = Char.ofNat 95 then
      let letters := rest.takeWhile isLowerAlpha
      match rest.drop letters.length with
      | d :: tail =>
        d = Char.ofNat 45 && !letters.isEmpty && !tail.isEmpty &&
          tail.all (fun c => isAlnumLower c || c = Char.ofNat 45)
      | [] => false
    else false
  | _ => false

/-- Regex `^[a-z]+-[a-f0-9]{5,}$` with flag `i`. -/
def randClassPat2 (s : String) : Bool :=
  let cs := (jsToLower s).toList
  let letters := cs.takeWhile isLowerAlpha
  match cs.drop letters.length with
  | d :: tail =>
    d = Char.ofNat 45 && !letters.isEmpty && tail.length ≥ 5 && tail.all isHexLower
  | [] => false

/-- Regex `^_[a-f0-9]{5,}$` with flag `i`. -/
def randClassPat3 (s : String) : Bool :=
  match (jsToLower s).toList with
  | c :: rest => c = Char.ofNat 95 && rest.length ≥ 5 && rest.all isHexLower
  | [] => false

/-- `StrategyManager.hasRandomClasses` (src/src/core/strategy-manager.js
lines 94-107): true when some whitespace-separated class token matches one of
the three machine-generated-token patterns. -/
def hasRandomClasses (d : Doc) (e : Node) : Bool :=
  if d.className e = "" then false
  else
    (splitWs (d.className e)).any fun cls =>
      randClassPat1 cls || randClassPat2 cls || randClassPat3 cls

/-! ### Utils (src/src/strategies/container-context-strategy.js, second
document of the file: the `Utils` class) -/

def containsCh (s : String) (c : Char) : Bool := s.toList.contains c

/-- `Utils.escapeXPath`: wrap a text in the quote style that keeps it a legal
XPath string literal, falling back to `concat(...)` when the text holds both
quote characters. -/
def Utils.escapeXPath (text : String) : String :=
  if text = "" then sq ++ sq
  else
    let hasSQ := containsCh text (Char.ofNat 39)
    let hasDQ := containsCh text (Char.ofNat 34)
    if hasSQ && !hasDQ then "\"" ++ text ++ "\""
    else if hasDQ && !hasSQ then sq ++ text ++ sq
    else if hasSQ && hasDQ then
      let parts := (splitOnCh (Char.ofNat 39) text).map fun part => sq ++ part ++ sq
      "concat(" ++ String.intercalate (", \"" ++ sq ++ "\" , ") parts ++ ")"
    else sq ++ text ++ sq

/-- `Utils.getVisibleText`: empty for a missing node and for a node whose
computed style is `display:none`, `visibility:hidden` or `opacity:0`;
otherwise the direct text-node children, each trimmed, joined by one space,
and the join trimmed.  The bounding box is not consulted. -/
def Utils.getVisibleText (d : Doc) (e? : Option Node) : String :=
  match e? with
  | none => ""
  | some e =>
    if d.display e = "none" || d.visibility e = "hidden" || d.opacity e = "0" then ""
    else jsTrim (String.intercalate (" ") ((d.textChildren e).map jsTrim))

/-- JavaScript `Array.prototype.indexOf`: the index of the first occurrence,
`-1` when absent. -/
def jsIndexOf (l : List Node) (x : Node) : Int :=
  match l.findIdx? (fun y => y == x) with
  | some i => (i : Int)
  | none => -1

/-- `Utils.getElementIndex`: 1-based position among the same-tag children of
the parent, 1 when the node has no parent. -/
def Utils.getElementIndex (d : Doc) (e : Node) : Int :=
  match d.parent e with
  | none => 1
  | some p => jsIndexOf ((d.children p).filter fun s => d.tag s = d.tag e) e + 1

/-- `Utils.getFrameworkType`: detect React, Vue or Angular markers on the
element, else `vanilla`. -/
def Utils.getFrameworkType (d : Doc) (e : Node) : String :=
  if d.reactMarker e then "react"
  else if d.vueMarker e then "vue"
  else if d.ngMarker e then "angular"
  else "vanilla"

/-- The ancestor walk of `Utils.isInShadowDOM`, with fuel (see header). -/
def isInShadowDOMFuel (d : Doc) : Nat → Option Node → Bool
  | 0, _ => false
  | _, none => false
  | fuel + 1, some cur =>
    if d.inShadowRoot cur then true else isInShadowDOMFuel d fuel (d.parent cur)

/-- `Utils.isInShadowDOM`: some self-or-ancestor has a shadow root as its
root node. -/
def Utils.isInShadowDOM (d : Doc) (e : Node) : Bool :=
  isInShadowDOMFuel d (e + 1) (some e)

/-- The self-or-ancestor walk of `element.closest(tag)`, with fuel. -/
def closestTagFuel (d : Doc) (t : String) : Nat → Option Node → Option Node
  | 0, _ => none
  | _, none => none
  | fuel + 1, some cur =>
    if jsToLower (d.tag cur) = t then some cur else closestTagFuel d t fuel (d.parent cur)

/-- `element.closest(tag)` for a plain tag selector. -/
def closestTag (d : Doc) (e : Node) (t : String) : Option Node :=
  closestTagFuel d t (e + 1) (some e)

/-! ### `Utils.isRandomGeneratedValue` (the 15 `randomValuePatterns`),
embedded pattern by pattern; all carry the `i` flag, so they run on the
lower-cased, trimmed value. -/

def hexRun (cs : List Char) (n : Nat) : Bool :=
  cs.length = n && cs.all isHexLower

/-- Regex `^[0-9a-f]{8}-[0-9a-f]{4}-[0-9a-f]{4}-[0-9a-f]{4}-[0-9a-f]{12}$`. -/
def uuidPat (s : String) : Bool :=
  match splitOnCh (Char.ofNat 45) s with
  | [a, b, c, d, e] =>
    hexRun a.toList 8 && hexRun b.toList 4 && hexRun c.toList 4 &&
      hexRun d.toList 4 && hexRun e.toList 12
  | _ => false

/-- Regex `^pfx-[a-z0-9-]+$` with flag `i`, for the framework-prefix
patterns (`react-`, `vue-`, `ng-`, `component-`, `auto-`, `gen-`). -/
def prefixDashPat (pfx : String) (s : String) : Bool :=
  let cs := s.toList
  let p := (pfx ++ "-").toList
  if cs.take p.length = p then
    let tail := cs.drop p.length
    !tail.isEmpty && tail.all fun c => isAlnumLower c || c = Char.ofNat 45
  else false

/-- `Utils.isRandomGeneratedValue`: true when the trimmed value matches one
of the hash / UUID / random-token shapes of `randomValuePatterns`. -/
def Utils.isRandomGeneratedValue (value : String) : Bool :=
  if value = "" then false
  else
    let v := jsToLower (jsTrim value)
    let cs := v.toList
    (cs.length = 8 && cs.all isHexLower)
    || (cs.length ≥ 6 && cs.all isHexLower)
    || uuidPat v
    || (match cs with
        | c :: rest => isLowerAlpha c && hexRun rest 7
        | [] => false)
    || (match cs with
        | c1 :: c2 :: rest => isLowerAlpha c1 && isLowerAlpha c2 && hexRun rest 6
        | _ => false)
    || (cs.length ≥ 8 && cs.length ≤ 12 && cs.all isAlnumLower)
    || randClassPat2 v
    || randClassPat3 v
    || prefixDashPat ("react") v
    || prefixDashPat ("vue") v
    || prefixDashPat ("ng") v
    || prefixDashPat ("component") v
    || prefixDashPat ("auto") v
    || prefixDashPat ("gen") v

/-! ### `Utils.filterFrameworkGeneratedNames` and `Utils.getFilteredClasses`
(src/src/strategies/container-context-strategy.js lines 581-686), embedded
pattern by pattern.  Patterns with the `i` flag run on the lower-cased name;
the `MuiBox-root` and `makeStyles` patterns carry no flag and run on the raw
name.  Character classes in these regexes never contain the literal that
delimits the following piece, so each quantified run is parsed
deterministically (no backtracking is possible), except `^[a-z]{1,3}...`
whose three run lengths are tried explicitly. -/

/-- Drop a prefix from a character list, or `none` when it is not a prefix. -/
def listDropPfx (p cs : List Char) : Option (List Char) :=
  if cs.take p.length = p then some (cs.drop p.length) else none

/-- All suffixes of a character list, longest first. -/
def suffixesL : List Char → List (List Char)
  | [] => [[]]
  | c :: rest => (c :: rest) :: suffixesL rest

/-- `String.prototype.includes`: some suffix of `s` starts with `pat`. -/
def containsSubstr (s pat : String) : Bool :=
  (suffixesL s.toList).any fun t => (listDropPfx pat.toList t).isSome

/-- Regex `^[a-f0-9]{6,}$` with flag `i`. -/
def patHexGe6 (s : String) : Bool :=
  let cs := (jsToLower s).toList
  cs.length ≥ 6 && cs.all isHexLower

/-- Regex `^\d+$`. -/
def patAllDigits (s : String) : Bool :=
  let cs := s.toList
  !cs.isEmpty && cs.all isDigitCh

/-- Regex `^[a-z0-9]+-[a-f0-9]{5,}$` with flag `i`. -/
def patAlnumDashHex5 (s : String) : Bool :=
  let cs := (jsToLower s).toList
  let pre := cs.takeWhile isAlnumLower
  match cs.drop pre.length with
  | d :: tail =>
    d = Char.ofNat 45 && !pre.isEmpty && tail.length ≥ 5 && tail.all isHexLower
  | [] => false

/-- Regex `^[a-z]+_[a-f0-9]{5,}$` with flag `i`. -/
def patAlphaUscoreHex5 (s : String) : Bool :=
  let cs := (jsToLower s).toList
  let pre := cs.takeWhile isLowerAlpha
  match cs.drop pre.length with
  | d :: tail =>
    d = Char.ofNat 95 && !pre.isEmpty && tail.length ≥ 5 && tail.all isHexLower
  | [] => false

/-- Regex `^[a-f0-9]{4,8}-[a-f0-9]{4,8}$` with flag `i`. -/
def patHexPair (s : String) : Bool :=
  match splitOnCh (Char.ofNat 45) (jsToLower s) with
  | [a, b] =>
    4 ≤ a.toList.length && a.toList.length ≤ 8 && a.toList.all isHexLower &&
    4 ≤ b.toList.length && b.toList.length ≤ 8 && b.toList.all isHexLower
  | _ => false

/-- One alternative of `^[a-z]{1,3}[0-9a-f]{6,}$`: `k` letters then 6+ hex. -/
def alphaThenHex6 (k : Nat) (cs : List Char) : Bool :=
  (cs.take k).length = k && (cs.take k).all isLowerAlpha &&
    (cs.drop k).length ≥ 6 && (cs.drop k).all isHexLower

/-- Regex `^[a-z]{1,3}[0-9a-f]{6,}$` with flag `i` (hex digits `a-f` are also
letters, so each of the three letter-run lengths must be tried). -/
def patShortAlphaHex6 (s : String) : Bool :=
  let cs := (jsToLower s).toList
  alphaThenHex6 1 cs || alphaThenHex6 2 cs || alphaThenHex6 3 cs

/-- Regex `^pfx-[a-z0-9]+$` with flag `i` (`css-`, `sc-`, `jsx-`); unlike
`prefixDashPat` the tail admits no dash. -/
def pfxAlnumPat (pfx : String) (s : String) : Bool :=
  match listDropPfx (pfx ++ "-").toList (jsToLower s).toList with
  | some tail => !tail.isEmpty && tail.all isAlnumLower
  | none => false

/-- Regex `emotion-[a-z0-9]+$` with flag `i` — unanchored at the start: some
suffix of the name is `emotion-` followed by a non-empty alnum run reaching
the end. -/
def patEmotionSuffix (s : String) : Bool :=
  (suffixesL (jsToLower s).toList).any fun t =>
    match listDropPfx ("emotion-").toList t with
    | some tail => !tail.isEmpty && tail.all isAlnumLower
    | none => false

/-- Regex `^__[a-z0-9-]+$` with flag `i`. -/
def patDunderTail (s : String) : Bool :=
  match listDropPfx ("__").toList (jsToLower s).toList with
  | some tail =>
    !tail.isEmpty && tail.all (fun c => isAlnumLower c || c = Char.ofNat 45)
  | none => false

/-- Regex `^[a-z]+-[0-9a-z]{6,}-[0-9a-z]{6,}$` with flag `i`: the classes
exclude `-`, so the name must split at exactly two dashes. -/
def patTripleReact (s : String) : Bool :=
  match splitOnCh (Char.ofNat 45) (jsToLower s) with
  | [p1, p2, p3] =>
    !p1.toList.isEmpty && p1.toList.all isLowerAlpha &&
    p2.toList.length ≥ 6 && p2.toList.all isAlnumLower &&
    p3.toList.length ≥ 6 && p3.toList.all isAlnumLower
  | _ => false

/-- Regex `^data-v-[a-f0-9]{8}$` with flag `i`. -/
def patDataV (s : String) : Bool :=
  match listDropPfx ("data-v-").toList (jsToLower s).toList with
  | some tail => hexRun tail 8
  | none => false

/-- Regex `^MuiBox-root-\d+$` (case-sensitive, so it runs on the raw name). -/
def patMuiBox (s : String) : Bool :=
  match listDropPfx ("MuiBox-root-").toList s.toList with
  | some tail => !tail.isEmpty && tail.all isDigitCh
  | none => false

/-- Regex `^makeStyles-[a-z]+-\d+$` (case-sensitive). -/
def patMakeStyles (s : String) : Bool :=
  match listDropPfx ("makeStyles-").toList s.toList with
  | some rest =>
    let letters := rest.takeWhile isLowerAlpha
    match rest.drop letters.length with
    | d :: tail =>
      d = Char.ofNat 45 && !letters.isEmpty && !tail.isEmpty &&
        tail.all isDigitCh
    | [] => false
  | none => false

/-- Regex `^jss\d+$` with flag `i`. -/
def patJss (s : String) : Bool :=
  match listDropPfx ("jss").toList (jsToLower s).toList with
  | some tail => !tail.isEmpty && tail.all isDigitCh
  | none => false

/-- Regex `^ant-[a-z]+-[a-f0-9]{6,}$` with flag `i`. -/
def patAnt (s : String) : Bool :=
  match listDropPfx ("ant-").toList (jsToLower s).toList with
  | some rest =>
    let letters := rest.takeWhile isLowerAlpha
    match rest.drop letters.length with
    | d :: tail =>
      d = Char.ofNat 45 && !letters.isEmpty && tail.length ≥ 6 &&
        tail.all isHexLower
    | [] => false
  | none => false

/-- Regex `^[a-z]+-\[[a-f0-9#%]+\]$` with flag `i` (Tailwind arbitrary
values; `[` is 91, `]` is 93, `#` is 35, `%` is 37). -/
def patTailwind (s : String) : Bool :=
  let cs := (jsToLower s).toList
  let letters := cs.takeWhile isLowerAlpha
  match cs.drop letters.length with
  | d :: b :: rest =>
    d = Char.ofNat 45 && b = Char.ofNat 91 && !letters.isEmpty &&
      (match rest.reverse with
       | last :: midRev =>
         last = Char.ofNat 93 && !midRev.isEmpty &&
           midRev.all (fun c =>
             isHexLower c || c = Char.ofNat 35 || c = Char.ofNat 37)
       | [] => false)
  | _ => false

/-- Regex `^[A-Z][a-z]*__[a-z0-9-]+$` with flag `i`: under `i` the head is
one-plus letters, then two underscores, then a non-empty `[a-z0-9-]` run. -/
def patBemHash (s : String) : Bool :=
  let cs := (jsToLower s).toList
  let letters := cs.takeWhile isLowerAlpha
  match cs.drop letters.length with
  | u1 :: u2 :: tail =>
    u1 = Char.ofNat 95 && u2 = Char.ofNat 95 && !letters.isEmpty &&
      !tail.isEmpty && tail.all (fun c => isAlnumLower c || c = Char.ofNat 45)
  | _ => false

/-- Regex `^[a-z]+[A-Z][a-z]*_[a-f0-9]{5,}$` with flag `i`: under `i` the
head is two-plus letters, then an underscore and 5+ hex characters. -/
def patCamelUscoreHex (s : String) : Bool :=
  let cs := (jsToLower s).toList
  let letters := cs.takeWhile isLowerAlpha
  match cs.drop letters.length with
  | d :: tail =>
    d = Char.ofNat 95 && letters.length ≥ 2 && tail.length ≥ 5 &&
      tail.all isHexLower
  | [] => false

/-- Regex `^[a-z]+-[a-z]+-[a-f0-9]{5,}$` with flag `i`: exactly two dashes,
two letter runs and a 5+ hex tail. -/
def patDoubleAlphaHex (s : String) : Bool :=
  match splitOnCh (Char.ofNat 45) (jsToLower s) with
  | [p1, p2, p3] =>
    !p1.toList.isEmpty && p1.toList.all isLowerAlpha &&
    !p2.toList.isEmpty && p2.toList.all isLowerAlpha &&
    p3.toList.length ≥ 5 && p3.toList.all isHexLower
  | _ => false

/-- Regex `^[a-z][0-9a-f]{7}$` with flag `i`. -/
def patAlpha1Hex7 (s : String) : Bool :=
  match (jsToLower s).toList with
  | c :: rest => isLowerAlpha c && hexRun rest 7
  | [] => false

/-- Regex `^[a-z]{2}[0-9a-f]{6}$` with flag `i`. -/
def patAlpha2Hex6 (s : String) : Bool :=
  match (jsToLower s).toList with
  | c1 :: c2 :: rest => isLowerAlpha c1 && isLowerAlpha c2 && hexRun rest 6
  | _ => false

/-- Regex `^[0-9a-f]{8}$` with flag `i`. -/
def patHex8 (s : String) : Bool :=
  hexRun (jsToLower s).toList 8

/-- Regex `^[a-z0-9]{8,12}$` with flag `i`. -/
def patAlnum8to12 (s : String) : Bool :=
  let cs := (jsToLower s).toList
  8 ≤ cs.length && cs.length ≤ 12 && cs.all isAlnumLower

/-- `dynamicPatterns.some(pattern => pattern.test(name))`: the disjunction of
the 32 `dynamicPatterns` of `filterFrameworkGeneratedNames` (lines 584-636),
in source order. -/
def Utils.dynamicPatternsMatch (name : String) : Bool :=
  patHexGe6 name || uuidPat (jsToLower name) || patAllDigits name
  || patAlnumDashHex5 name || patAlphaUscoreHex5 name || randClassPat3 name
  || patHexPair name || patShortAlphaHex6 name
  || pfxAlnumPat ("css") name || pfxAlnumPat ("sc") name
  || pfxAlnumPat ("jsx") name || patEmotionSuffix name || patDunderTail name
  || prefixDashPat ("react") (jsToLower name) || patTripleReact name
  || patDataV name || prefixDashPat ("vue") (jsToLower name)
  || prefixDashPat ("ng") (jsToLower name)
  || prefixDashPat ("_ngcontent") (jsToLower name)
  || prefixDashPat ("_nghost") (jsToLower name)
  || patMuiBox name || patMakeStyles name || patJss name || patAnt name
  || patTailwind name || patBemHash name || patCamelUscoreHex name
  || patDoubleAlphaHex name || patAlpha1Hex7 name || patAlpha2Hex6 name
  || patHex8 name || patAlnum8to12 name

/-- `idPatterns.some(pattern => pattern.test(name))`: the six extra patterns
applied when `type === 'id'` (lines 646-653); the first three carry no end
anchor, so they are bare prefix tests. -/
def Utils.idPatternsMatch (name : String) : Bool :=
  let v := (jsToLower name).toList
  (listDropPfx ("react-").toList v).isSome
  || (listDropPfx ("vue-").toList v).isSome
  || (listDropPfx ("ng-").toList v).isSome
  || (match listDropPfx ("root-").toList v with
      | some tail => !tail.isEmpty && tail.all isDigitCh
      | none => false)
  || prefixDashPat ("app") (jsToLower name)
  || prefixDashPat ("component") (jsToLower name)

/-- `Utils.filterFrameworkGeneratedNames` (lines 581-661): drop names that
are empty or shorter than two characters and names matching any dynamic
pattern; for ids, additionally drop names matching a framework-id pattern. -/
def Utils.filterFrameworkGeneratedNames (names : List String)
    (type : String) : List String :=
  names.filter fun name =>
    if name = "" || name.length < 2 then false
    else
      let isDynamic := Utils.dynamicPatternsMatch name
      if type = "id" then !isDynamic && !Utils.idPatternsMatch name
      else !isDynamic

/-- `Utils.getFilteredClasses` (lines 667-675), string-argument case: split
on whitespace runs, drop empty tokens, filter the framework-generated
names. -/
def Utils.getFilteredClasses (className : String) : List String :=
  if className = "" then []
  else
    Utils.filterFrameworkGeneratedNames
      ((splitWs className).filter fun cls => cls.length > 0) ("class")

/-! ### Stable sorting

`Array.prototype.sort` with a comparator is specified (ES2019) to be a stable
sort; with the comparator `(a, b) => k(b) - k(a)` it therefore produces the
unique permutation that is ordered by `k` descending and keeps the original
relative order of equal keys.  Any stable sorting algorithm computes that
permutation, and `insSortB` below (insertion sort with a non-strict
descending test) is one such algorithm, so it is the extensional model of the
source's sort calls. -/

def ordInsertB (le : α → α → Bool) (x : α) : List α → List α
  | [] => [x]
  | y :: ys => if le x y then x :: y :: ys else y :: ordInsertB le x ys

def insSortB (le : α → α → Bool) : List α → List α
  | [] => []
  | x :: xs => ordInsertB le x (insSortB le xs)

/-- Model of `list.sort((a, b) => k(b) - k(a))`: stable sort by key
descending. -/
def jsSortBy (k : α → Int) (l : List α) : List α :=
  insSortB (fun a b => decide (k b ≤ k a)) l

/-- Indexing of a list from a starting position, used to state stability. -/
def enumFromL : Nat → List α → List (Nat × α)
  | _, [] => []
  | n, x :: xs => (n, x) :: enumFromL (n + 1) xs

/-- The ordering the spec describes: key descending, ties broken by the
original position. -/
def lexKeyLe (k : α → Int) (a b : Nat × α) : Bool :=
  decide (k b.2 < k a.2) || (decide (k a.2 = k b.2) && decide (a.1 ≤ b.1))

/-- Ranking as the spec words it: tag every element with its original
position, sort by (key descending, position ascending), drop the tags. -/
def rankSpecBy (k : α → Int) (l : List α) : List α :=
  (insSortB (lexKeyLe k) (enumFromL 0 l)).map Prod.snd

/-! ### Strategy manager (src/src/core/strategy-manager.js) -/

/-- A candidate as pushed by `StrategyManager.generateXPath`:
`{strategy, xpath, score, priority}`. -/
structure Candidate where
  strategy : String
  xpath : String
  score : Int
  priority : Int
deriving Repr, DecidableEq

/-- The shared context built by `StrategyManager.buildContext`; `analysis` is
the element-analyzer output spread in through the options, left polymorphic
because no embedded code inspects its shape. -/
structure Ctx (α : Type) where
  framework : String
  isInShadowDOM : Bool
  elementType : String
  analysis : Option α
deriving DecidableEq

/-- `StrategyManager.getElementType`. -/
def StrategyManager.getElementType (d : Doc) (e : Node) : String :=
  let tagName := jsToLower (d.tag e)
  let role := d.roleAttr e
  if ["input", "select", "textarea", "button"].contains tagName then
    "form-" ++ tagName
  else if tagName = "a" && d.href e ≠ "" then "link"
  else if role ≠ "" then "role-" ++ role
  else if ["div", "span", "section", "article", "header", "footer", "nav"].contains tagName then
    "container"
  else if ["h1", "h2", "h3", "h4", "h5", "h6", "p", "label"].contains tagName then
    "text"
  else "other"

/-- `StrategyManager.buildContext`. -/
def StrategyManager.buildContext (d : Doc) (e : Node) (analysis? : Option α) : Ctx α :=
  { framework := Utils.getFrameworkType d e
    isInShadowDOM := Utils.isInShadowDOM d e
    elementType := StrategyManager.getElementType d e
    analysis := analysis? }

/-- One registered strategy, with the three methods the manager calls; each
may raise (`Except.error`), as the source's per-strategy `try` anticipates. -/
structure Strategy (α : Type) where
  name : String
  priority : Int
  isApplicable : Doc → Node → Ctx α → Except JsErr Bool
  generate : Doc → Node → Ctx α → Except JsErr (Option String)
  getScore : Doc → Node → Ctx α → Except JsErr Int

/-- The loop body of `StrategyManager.generateXPath` for one strategy: inside
the per-strategy `try`, check applicability, generate, score, apply the
random-class penalty, and push the candidate; any exception is caught and the
strategy contributes nothing. -/
def runStrategy (d : Doc) (hasRandom : Bool) (e : Node) (ctx : Ctx α)
    (s : Strategy α) : Option Candidate :=
  match s.isApplicable d e ctx with
  | Except.error _ => none
  | Except.ok false => none
  | Except.ok true =>
    match s.generate d e ctx with
    | Except.error _ => none
    | Except.ok none => none
    | Except.ok (some xp) =>
      if xp = "" then none
      else
        match s.getScore d e ctx with
        | Except.error _ => none
        | Except.ok score0 =>
          some { strategy := s.name
                 xpath := xp
                 score := if hasRandom && s.name == "attribute" then score0 - 50 else score0
                 priority := s.priority }

/-- The result object of `StrategyManager.generateXPath`. -/
structure SMResult (α : Type) where
  success : Bool
  primary : Option Candidate
  alternatives : List Candidate
  context : Ctx α
deriving DecidableEq

/-- `StrategyManager.generateXPath` (src/src/core/strategy-manager.js lines
50-92): run every strategy under a per-strategy `try`, apply the random-class
penalty to attribute-strategy scores, stable-sort by score descending, and
select primary plus the next two alternatives. -/
def StrategyManager.generateXPath (d : Doc) (strategies : List (Strategy α))
    (e : Node) (analysis? : Option α) : SMResult α :=
  let context := StrategyManager.buildContext d e analysis?
  let hasRandom := hasRandomClasses d e
  let results := strategies.filterMap (runStrategy d hasRandom e context)
  let sorted := jsSortBy (fun c : Candidate => c.score) results
  { success := !results.isEmpty
    primary := sorted.head?
    alternatives := (sorted.drop 1).take 2
    context := context }

/-- `StrategyManager.registerStrategy`: push, then re-sort the registry by
priority descending (a stable sort, so registration order is kept among equal
priorities).  Stated generically over the priority key. -/
def registerStrategy (prio : α → Int) (l : List α) (s : α) : List α :=
  jsSortBy prio (l ++ [s])

/-- The `(name, priority)` descriptors of the seven strategies, in the order
`initializeStrategies` registers them. -/
def registrationOrder : List (String × Int) :=
  [("text", 110), ("attribute", 100), ("anchor", 95), ("container-context", 90),
   ("shadow-dom", 90), ("svg", 85), ("relative", 60)]

/-- The registry as `initializeStrategies` leaves it: each strategy pushed and
re-sorted in turn. -/
def builtRegistry : List (String × Int) :=
  registrationOrder.foldl (registerStrategy (fun p : String × Int => p.2)) []

/-! ### BaseStrategy (src/src/strategies/base-strategy.js) -/

/-- `BaseStrategy.validateXPath` (lines 38-52): evaluate the expression with
`XPathResult.FIRST_ORDERED_NODE_TYPE` and compare the single node value — the
first match in document order — against the target with `===`.  A syntax
error is caught and yields `false`.  Note that this checks only the first
match: it does not require the match set to be a singleton. -/
def BaseStrategy.validateXPath (d : Doc) (xpath : String) (target : Node) : Bool :=
  match d.evalX xpath with
  | none => false
  | some nodes => nodes.head? == some target

/-! ### SVGStrategy (src/unnamed/part_002)

The analysis object this strategy reads is the concrete shape produced by
`ElementAnalyzer.analyzeSVGElement` (src/src/core/element-analyzer.js lines
387-410), so the strategy is embedded at the concrete analysis type
`SvgAnalysis` rather than over the polymorphic `α`. -/

/-- The record `ElementAnalyzer.analyzeSVGElement` returns; string fields
use the empty string for an absent attribute. -/
structure SvgInfo where
  isRoot : Bool
  svgElement : Node
  viewBox : String
  width : String
  height : String
  hasTitle : Bool
  hasDesc : Bool
  titleText : String
  descText : String
  pathCount : Nat
  useElements : Nat
  hasAriaLabel : Bool
  ariaLabelText : String
deriving Repr, DecidableEq

/-- The `basic` analysis fields the SVG strategy reads (`isSVG`,
`svgInfo`). -/
structure SvgBasic where
  isSVG : Bool
  svgInfo : Option SvgInfo
deriving Repr, DecidableEq

/-- The analysis object handed through `context.analysis`. -/
structure SvgAnalysis where
  basic : SvgBasic
deriving Repr, DecidableEq

/-- The ancestor walk of `SVGStrategy.findParentWithLabel`: up to three
levels, return the first ancestor carrying a trimmed-non-empty `aria-label`,
a trimmed-non-empty `title` attribute, or a `data-*` attribute whose name
contains `label`, `title` or `tooltip` and whose value trims non-empty —
with the attribute name and trimmed value. -/
def findParentWithLabelFuel (d : Doc) : Nat → Option Node →
    Option (Node × String × String)
  | 0, _ => none
  | _, none => none
  | depth + 1, some cur =>
    if jsTrim (d.ariaLabel cur) ≠ "" then
      some (cur, "aria-label", jsTrim (d.ariaLabel cur))
    else if jsTrim (d.titleAttr cur) ≠ "" then
      some (cur, "title", jsTrim (d.titleAttr cur))
    else
      match (d.attrs cur).find? (fun p =>
          (listDropPfx ("data-").toList p.1.toList).isSome
          && (containsSubstr p.1 ("label") || containsSubstr p.1 ("title")
              || containsSubstr p.1 ("tooltip"))
          && jsTrim p.2 ≠ "") with
      | some p => some (cur, p.1, jsTrim p.2)
      | none => findParentWithLabelFuel d depth (d.parent cur)

/-- `SVGStrategy.findParentWithLabel` (part_002 lines 100-130): start at the
parent of the svg element, walk at most three levels. -/
def SVGStrategy.findParentWithLabel (d : Doc) (svgElement : Node) :
    Option (Node × String × String) :=
  findParentWithLabelFuel d 3 (d.parent svgElement)

/-- `SVGStrategy.generatePositionalXPath` (part_002 lines 132-135): the
purely positional expression, built WITHOUT consulting the oracle. -/
def SVGStrategy.generatePositionalXPath (d : Doc) (svgElement : Node) :
    String :=
  "//svg[" ++ toString (Utils.getElementIndex d svgElement) ++ "]"

/-- `SVGStrategy.isApplicable` (part_002 lines 10-13). -/
def SVGStrategy.isApplicable (d : Doc) (e : Node) (ctx : Ctx SvgAnalysis) :
    Except JsErr Bool :=
  match ctx.analysis with
  | none => Except.ok false
  | some analysis => Except.ok analysis.basic.isSVG

/-- `SVGStrategy.generate` (part_002 lines 15-98): build the ordered
formulation list from the SVG analysis and return the first formulation that
passes `validateXPath` — validated against the svg ROOT element `svgElement`,
not against the clicked target.  When every formulation fails (in particular
when the list is empty), line 96 returns `generatePositionalXPath(svgElement)`
directly: an expression that never went through `BaseStrategy.validateXPath`
and is handed to the ranker without any provisional mark. -/
def SVGStrategy.generate (d : Doc) (e : Node) (ctx : Ctx SvgAnalysis) :
    Except JsErr (Option String) :=
  match ctx.analysis with
  | none => Except.ok none
  | some analysis =>
    match analysis.basic.svgInfo with
    | none => Except.ok none
    | some svgInfo =>
      let svgElement := svgInfo.svgElement
      let s1 : List String :=
        if svgInfo.hasAriaLabel && svgInfo.ariaLabelText ≠ "" then
          let el := Utils.escapeXPath svgInfo.ariaLabelText
          [ "//svg[@aria-label=" ++ el ++ "]",
            "//*[name()=" ++ sq ++ "svg" ++ sq ++ "][@aria-label=" ++ el
              ++ "]" ]
        else []
      let s2 : List String :=
        if svgInfo.hasTitle && svgInfo.titleText ≠ "" then
          let et := Utils.escapeXPath svgInfo.titleText
          [ "//svg[title[text()=" ++ et ++ "]]",
            "//*[name()=" ++ sq ++ "svg" ++ sq ++ "][*[name()=" ++ sq
              ++ "title" ++ sq ++ "][text()=" ++ et ++ "]]" ]
        else []
      let s3 : List String :=
        if svgInfo.hasDesc && svgInfo.descText ≠ "" then
          let ed := Utils.escapeXPath svgInfo.descText
          [ "//svg[desc[text()=" ++ ed ++ "]]",
            "//*[name()=" ++ sq ++ "svg" ++ sq ++ "][*[name()=" ++ sq
              ++ "desc" ++ sq ++ "][text()=" ++ ed ++ "]]" ]
        else []
      let s4 : List String :=
        match SVGStrategy.findParentWithLabel d svgElement with
        | some (parent, attrName, value) =>
          let ev := Utils.escapeXPath value
          let parentTag := jsToLower (d.tag parent)
          [ "//" ++ parentTag ++ "[@" ++ attrName ++ "=" ++ ev ++ "]//svg",
            "//" ++ parentTag ++ "[@" ++ attrName ++ "=" ++ ev
              ++ "]//*[name()=" ++ sq ++ "svg" ++ sq ++ "]" ]
        | none => []
      let s5 : List String :=
        if d.classNameBaseVal svgElement ≠ "" then
          ((Utils.getFilteredClasses (d.classNameBaseVal svgElement)).take
              2).flatMap fun cls =>
            [ "//svg[contains(@class, " ++ sq ++ cls ++ sq ++ ")]",
              "//*[name()=" ++ sq ++ "svg" ++ sq ++ "][contains(@class, "
                ++ sq ++ cls ++ sq ++ ")]" ]
        else []
      let s6 : List String :=
        if svgInfo.viewBox ≠ "" then
          [ "//svg[@viewBox=" ++ sq ++ svgInfo.viewBox ++ sq ++ "]",
            "//*[name()=" ++ sq ++ "svg" ++ sq ++ "][@viewBox=" ++ sq
              ++ svgInfo.viewBox ++ sq ++ "]" ]
        else []
      let s7 : List String :=
        if svgInfo.pathCount > 0 then
          [ "//svg[count(.//path)=" ++ toString svgInfo.pathCount ++ "]",
            "//*[name()=" ++ sq ++ "svg" ++ sq ++ "][count(.//*[name()="
              ++ sq ++ "path" ++ sq ++ "])=" ++ toString svgInfo.pathCount
              ++ "]" ]
        else []
      let s8 : List String :=
        if svgInfo.useElements > 0 && d.firstUseHref svgElement ≠ "" then
          let href := d.firstUseHref svgElement
          [ "//svg[.//use[@href=" ++ sq ++ href ++ sq ++ "]]",
            "//*[name()=" ++ sq ++ "svg" ++ sq ++ "][.//*[name()=" ++ sq
              ++ "use" ++ sq ++ "][@href=" ++ sq ++ href ++ sq ++ "]]" ]
        else []
      let formulations := s1 ++ s2 ++ s3 ++ s4 ++ s5 ++ s6 ++ s7 ++ s8
      match formulations.find?
          (fun xp => BaseStrategy.validateXPath d xp svgElement) with
      | some xp => Except.ok (some xp)
      | none =>
        Except.ok (some (SVGStrategy.generatePositionalXPath d svgElement))

/-- `SVGStrategy.getScore` (part_002 lines 137-167). -/
def SVGStrategy.getScore (d : Doc) (e : Node) (ctx : Ctx SvgAnalysis) :
    Except JsErr Int :=
  match ctx.analysis with
  | none => Except.ok 0
  | some analysis =>
    match analysis.basic.svgInfo with
    | none => Except.ok 0
    | some svgInfo =>
      let base : Int := 85
      let v1 := if svgInfo.hasAriaLabel then base + 40 else base
      let v2 := if svgInfo.hasTitle then v1 + 30 else v1
      let v3 := if svgInfo.hasDesc then v2 + 25 else v2
      let v4 :=
        match SVGStrategy.findParentWithLabel d svgInfo.svgElement with
        | some _ => v3 + 20
        | none => v3
      let v5 := if svgInfo.viewBox ≠ "" then v4 + 15 else v4
      let v6 :=
        if d.classNameBaseVal svgInfo.svgElement ≠ "" then v5 + 10 else v5
      Except.ok v6

/-- The SVG strategy as registered: name `svg`, priority 85. -/
def svgStrategy : Strategy SvgAnalysis :=
  { name := "svg", priority := 85
    isApplicable := SVGStrategy.isApplicable
    generate := SVGStrategy.generate
    getScore := SVGStrategy.getScore }

/-! ### TextStrategy (src/unnamed/part_001)

The class calls four of its own methods — `getElementIndexInDuplicates`,
`generateContainerBasedXPath`, `generateAnchorBasedXPath`,
`generateIndexBasedXPath` — that are defined nowhere in the repository.  In
JavaScript each such call evaluates `this.<missing>` to `undefined` and
raises `TypeError: this.<missing> is not a function`; the embeddings below
therefore return `Except.error` unconditionally. -/

/-- Called at src/unnamed/part_001 line 147; not defined anywhere in the
repository, so the call raises a `TypeError`. -/
def TextStrategy.getElementIndexInDuplicates (target : Node)
    (duplicates : List Node) : Except JsErr Nat :=
  Except.error { msg := "this.getElementIndexInDuplicates is not a function" }

/-- Called at src/unnamed/part_001 line 167; not defined anywhere in the
repository, so the call raises a `TypeError`. -/
def TextStrategy.generateContainerBasedXPath (d : Doc) (e : Node)
    (text escapedText tagName : String) : Except JsErr (Option String) :=
  Except.error { msg := "this.generateContainerBasedXPath is not a function" }

/-- Called at src/unnamed/part_001 line 173; not defined anywhere in the
repository, so the call raises a `TypeError`. -/
def TextStrategy.generateAnchorBasedXPath (d : Doc) (e : Node)
    (text escapedText tagName : String) : Except JsErr (Option String) :=
  Except.error { msg := "this.generateAnchorBasedXPath is not a function" }

/-- The duplicate information record `detectDuplicateText` returns. -/
structure DupInfo where
  hasDuplicates : Bool
  count : Nat
  elements : List Node
  targetIndex : Nat
deriving Repr, DecidableEq

/-- Called at src/unnamed/part_001 line 179; not defined anywhere in the
repository, so the call raises a `TypeError`. -/
def TextStrategy.generateIndexBasedXPath (d : Doc) (e : Node)
    (text escapedText tagName : String) (dup : DupInfo) :
    Except JsErr (Option String) :=
  Except.error { msg := "this.generateIndexBasedXPath is not a function" }

/-- `TextStrategy.detectDuplicateText` (src/unnamed/part_001 lines 122-152):
inside a `try`, evaluate the duplicate query, collect the matches other than
the target, and build the result record — whose `targetIndex` property calls
the missing `getElementIndexInDuplicates`, raising a `TypeError` that the
`catch` turns into the no-duplicates default. -/
def TextStrategy.detectDuplicateText (d : Doc) (text : String) (target : Node) :
    DupInfo :=
  let escapedText := Utils.escapeXPath text
  let xpath :=
    "//*[text()=" ++ escapedText ++ " or contains(text(), " ++ escapedText ++ ")]"
  let attempt : Except JsErr DupInfo := do
    let nodes ← match d.evalX xpath with
      | some ns => Except.ok ns
      | none => Except.error { msg := "document.evaluate" }
    let duplicates := nodes.filter fun n => n ≠ target
    let targetIndex ← TextStrategy.getElementIndexInDuplicates target duplicates
    Except.ok
      { hasDuplicates := !duplicates.isEmpty
        count := duplicates.length + 1
        elements := duplicates
        targetIndex := targetIndex }
  match attempt with
  | Except.ok r => r
  | Except.error _ =>
    { hasDuplicates := false, count := 1, elements := [], targetIndex := 0 }

/-- `TextStrategy.generateContextAwareXPath` (src/unnamed/part_001 lines
162-185): try the container-scoped, anchor-relative and index-qualified
formulations in that order, returning the first that validates.  Every call
raises at its first step because the three generators are missing. -/
def TextStrategy.generateContextAwareXPath (d : Doc) (e : Node) (text : String)
    (dup : DupInfo) : Except JsErr (Option String) := do
  let escapedText := Utils.escapeXPath text
  let tagName := jsToLower (d.tag e)
  let containerXPath ← TextStrategy.generateContainerBasedXPath d e text escapedText tagName
  match containerXPath with
  | some cx =>
    if BaseStrategy.validateXPath d cx e then pure (some cx)
    else do
      let anchorXPath ← TextStrategy.generateAnchorBasedXPath d e text escapedText tagName
      match anchorXPath with
      | some ax =>
        if BaseStrategy.validateXPath d ax e then pure (some ax)
        else do
          let indexXPath ← TextStrategy.generateIndexBasedXPath d e text escapedText tagName dup
          match indexXPath with
          | some ix => if BaseStrategy.validateXPath d ix e then pure (some ix) else pure none
          | none => pure none
      | none => do
        let indexXPath ← TextStrategy.generateIndexBasedXPath d e text escapedText tagName dup
        match indexXPath with
        | some ix => if BaseStrategy.validateXPath d ix e then pure (some ix) else pure none
        | none => pure none
  | none => do
    let anchorXPath ← TextStrategy.generateAnchorBasedXPath d e text escapedText tagName
    match anchorXPath with
    | some ax =>
      if BaseStrategy.validateXPath d ax e then pure (some ax)
      else do
        let indexXPath ← TextStrategy.generateIndexBasedXPath d e text escapedText tagName dup
        match indexXPath with
        | some ix => if BaseStrategy.validateXPath d ix e then pure (some ix) else pure none
        | none => pure none
    | none => do
      let indexXPath ← TextStrategy.generateIndexBasedXPath d e text escapedText tagName dup
      match indexXPath with
      | some ix => if BaseStrategy.validateXPath d ix e then pure (some ix) else pure none
      | none => pure none

/-- `TextStrategy.isButtonLikeElement`. -/
def TextStrategy.isButtonLikeElement (d : Doc) (e : Node) : Bool :=
  let tagName := jsToLower (d.tag e)
  tagName == "button"
  || (tagName == "input" && ["button", "submit", "reset"].contains (d.typeAttr e))
  || d.roleAttr e == "button"
  || (splitWs (d.className e)).contains ("btn")
  || (splitWs (d.className e)).contains ("button")

/-- `TextStrategy.isLinkElement`. -/
def TextStrategy.isLinkElement (d : Doc) (e : Node) : Bool :=
  jsToLower (d.tag e) == "a" && d.href e ≠ ""

/-- `TextStrategy.isApplicable`: non-empty visible text of at most 50
characters. -/
def TextStrategy.isApplicable (d : Doc) (e : Node) (ctx : Ctx α) :
    Except JsErr Bool :=
  let text := Utils.getVisibleText d (some e)
  Except.ok (text.length > 0 && text.length ≤ 50)

/-- `TextStrategy.getScore` (src/unnamed/part_001 lines 93-114). -/
def TextStrategy.getScore (d : Doc) (e : Node) (ctx : Ctx α) : Except JsErr Int :=
  let base : Int := 110 + 100
  let text := Utils.getVisibleText d (some e)
  let s1 :=
    if text.length ≤ 10 then base + 50
    else if text.length ≤ 20 then base + 30
    else if text.length ≤ 30 then base + 5
    else base
  let s2 := if TextStrategy.isButtonLikeElement d e then s1 + 50 else s1
  let s3 := if TextStrategy.isLinkElement d e then s2 + 30 else s2
  let s4 :=
    if text.length ≤ 15 && !(TextStrategy.detectDuplicateText d text e).hasDuplicates
    then s3 + 100 else s3
  Except.ok s4

/-- The ordered formulation list `TextStrategy.generate` builds in the
no-duplicate case: the button-parent variants for a `span` inside a `button`
with the same text, then the five standard text formulations, with the
button-like variants unshifted to the front. -/
def TextStrategy.formulations (d : Doc) (e : Node) (text : String) : List String :=
  let tagName := jsToLower (d.tag e)
  let escapedText := Utils.escapeXPath text
  let normEscaped := Utils.escapeXPath (collapseWs text)
  let buttonParent : List String :=
    if tagName = "span" then
      match closestTag d e ("button") with
      | some btn =>
        let buttonText := jsTrim (Utils.getVisibleText d (some btn))
        if buttonText = text then
          [ "//button[text()=" ++ escapedText ++ "]",
            "//button[contains(text(), " ++ escapedText ++ ")]",
            "//button[normalize-space(text())=" ++ normEscaped ++ "]" ]
        else []
      | none => []
    else []
  let standard : List String :=
    [ "//" ++ tagName ++ "[text()=" ++ escapedText ++ "]",
      "//" ++ tagName ++ "[contains(text(), " ++ escapedText ++ ")]",
      "//" ++ tagName ++ "[normalize-space(text())=" ++ normEscaped ++ "]",
      "//*[text()=" ++ escapedText ++ "]",
      "//*[contains(text(), " ++ escapedText ++ ")]" ]
  let buttonLike : List String :=
    if TextStrategy.isButtonLikeElement d e then
      [ "//button[text()=" ++ escapedText ++ "]",
        "//input[@type=" ++ sq ++ "button" ++ sq ++ " and @value=" ++ escapedText ++ "]",
        "//input[@type=" ++ sq ++ "submit" ++ sq ++ " and @value=" ++ escapedText ++ "]",
        "//*[@role=" ++ sq ++ "button" ++ sq ++ " and text()=" ++ escapedText ++ "]" ]
    else []
  buttonLike ++ (buttonParent ++ standard)

/-- `TextStrategy.generate` (src/unnamed/part_001 lines 15-75): on duplicate
text escalate through `generateContextAwareXPath`; otherwise return the
first formulation that `validateXPath` accepts, or `none`. -/
def TextStrategy.generate (d : Doc) (e : Node) (ctx : Ctx α) :
    Except JsErr (Option String) :=
  let text := jsTrim (Utils.getVisibleText d (some e))
  if text = "" then Except.ok none
  else
    let dup := TextStrategy.detectDuplicateText d text e
    if dup.hasDuplicates then TextStrategy.generateContextAwareXPath d e text dup
    else
      Except.ok ((TextStrategy.formulations d e text).find? fun xp =>
        BaseStrategy.validateXPath d xp e)

/-- The text strategy as registered: name `text`, priority 110. -/
def textStrategy : Strategy α :=
  { name := "text"
    priority := 110
    isApplicable := TextStrategy.isApplicable
    generate := TextStrategy.generate
    getScore := TextStrategy.getScore }

/-! ### ElementAnalyzer helpers used for the cache key
(src/src/core/element-analyzer.js lines 257-285) -/

/-- Wrap an integer to the signed 32-bit range, as the JavaScript `| 0` and
`&` coercions do. -/
def toInt32 (n : Int) : Int := (n + 2 ^ 31) % 2 ^ 32 - 2 ^ 31

/-- One step of the string hash: `hash = ((hash << 5) - hash) + char` followed
by `hash = hash & hash` (a 32-bit wrap). -/
def hashStep (h : Int) (c : Char) : Int :=
  toInt32 (toInt32 (h * 32) - h + (c.toNat : Int))

/-- JavaScript `Number.prototype.toString(36)` for 32-bit integers. -/
def intToString36 (n : Int) : String :=
  if n < 0 then "-" ++ String.mk (Nat.toDigits 36 n.natAbs)
  else String.mk (Nat.toDigits 36 n.toNat)

/-- The ancestor walk of `ElementAnalyzer.getElementPath`, with fuel: one
`tag[index]` segment per node strictly below `document.body`, where `index`
is the 0-based position among all of the parent's children. -/
def getElementPathFuel (d : Doc) : Nat → Option Node → List String
  | 0, _ => []
  | _, none => []
  | fuel + 1, some cur =>
    if cur = d.body then []
    else
      let idx : Int :=
        match d.parent cur with
        | some p => jsIndexOf (d.children p) cur
        | none => -1
      (jsToLower (d.tag cur) ++ "[" ++ toString idx ++ "]")
        :: getElementPathFuel d fuel (d.parent cur)

/-- `ElementAnalyzer.getElementPath`: the segments joined root-first with
`>`. -/
def ElementAnalyzer.getElementPath (d : Doc) (e : Node) : String :=
  String.intercalate (">") ((getElementPathFuel d (e + 1) (some e)).reverse)

/-- `ElementAnalyzer.hashAttributes`: join the sorted `name=value` pairs with
`|` and hash the result to a base-36 string. -/
def ElementAnalyzer.hashAttributes (d : Doc) (e : Node) : String :=
  let parts := (d.attrs e).map fun p => p.1 ++ "=" ++ p.2
  let sortedParts := insSortB (fun a b => decide (a ≤ b)) parts
  let attrsStr := String.intercalate ("|") sortedParts
  intToString36 (attrsStr.toList.foldl hashStep 0)

/-! ### XPathGenerator (src/src/core/xpath-generator.js) -/

/-- The element summary placed in results:
`{tagName, text, id, className}`. -/
structure ElementInfo where
  tagName : String
  text : String
  id : String
  className : String
deriving Repr, DecidableEq

/-- The result object of `XPathGenerator.generateXPath`.  Fields a branch of
the source does not set are `none` here (the JavaScript object simply lacks
the key). -/
structure GenResult (α : Type) where
  success : Bool
  error : Option String
  primary : Option Candidate
  alternatives : List Candidate
  element : Option ElementInfo
  analysis : Option α
  context : Option (Ctx α)
  timestamp : Nat
deriving DecidableEq

structure CacheEntry (α : Type) where
  data : GenResult α
  timestamp : Nat
deriving DecidableEq

/-- The coordinator cache, a map from fingerprint keys to entries. -/
abbrev Cache (α : Type) := List (String × CacheEntry α)

def cacheGet (c : Cache α) (k : String) : Option (CacheEntry α) :=
  (c.find? fun p => p.1 == k).map Prod.snd

def cacheSet (c : Cache α) (k : String) (v : CacheEntry α) : Cache α :=
  (k, v) :: c.filter fun p => p.1 ≠ k

/-- `XPathGenerator.cleanupCache`: drop entries older than the 10000-unit
TTL. -/
def XPathGenerator.cleanupCache (now : Nat) (c : Cache α) : Cache α :=
  c.filter fun p => decide (now - p.2.timestamp ≤ 10000)

/-- `XPathGenerator.generateCacheKey`: structural path plus attribute hash. -/
def XPathGenerator.generateCacheKey (d : Doc) (e : Node) : String :=
  ElementAnalyzer.getElementPath d e ++ "_" ++ ElementAnalyzer.hashAttributes d e

/-- One positional segment of the fallback walk:
`tag[index]` with the 1-based same-tag index. -/
def fallbackSeg (d : Doc) (c : Node) : String :=
  jsToLower (d.tag c) ++ "[" ++ toString (Utils.getElementIndex d c) ++ "]"

/-- The anchoring segment of the fallback walk: `//tag[@id=...]`. -/
def fallbackAnchorSeg (d : Doc) (a : Node) : String :=
  "//" ++ jsToLower (d.tag a) ++ "[@id=" ++ sq ++ d.idAttr a ++ sq ++ "]"

/-- The ancestor walk of `XPathGenerator.generateFallbackXPath`, with fuel:
starting from the element itself and stopping below `document.body`, emit one
`tag[index]` segment per id-less node and stop at the first node whose `id`
attribute is non-empty, anchoring there with `//tag[@id=...]`.  The id is
used whenever it is non-empty; no trustworthiness check is applied. -/
def fallbackSegsFuel (d : Doc) : Nat → Option Node → List String
  | 0, _ => []
  | _, none => []
  | fuel + 1, some cur =>
    if cur = d.body then []
    else if d.idAttr cur ≠ "" then [fallbackAnchorSeg d cur]
    else fallbackSeg d cur :: fallbackSegsFuel d fuel (d.parent cur)

/-- `XPathGenerator.generateFallbackXPath` (src/src/core/xpath-generator.js
lines 139-158): the collected segments joined with `/` behind a leading `/`,
or `//tag` when the walk produced no segment. -/
def XPathGenerator.generateFallbackXPath (d : Doc) (e : Node) : String :=
  let path := (fallbackSegsFuel d (e + 1) (some e)).reverse
  if path.isEmpty then "//" ++ jsToLower (d.tag e)
  else "/" ++ String.intercalate ("/") path

def XPathGenerator.elementInfo (d : Doc) (e : Node) : ElementInfo :=
  { tagName := jsToLower (d.tag e)
    text := Utils.getVisibleText d (some e)
    id := d.idAttr e
    className := d.className e }

def invalidElementMsg : String := "无效的元素"

def terminalFailureMsg : String :=
  "未能提取有效的XPath，该元素可能缺乏唯一标识符"

def caughtErrorPrefix : String := "XPath提取失败: "

/-- The invalid-element result (null element or missing `tagName`). -/
def XPathGenerator.invalidResult (now : Nat) : GenResult α :=
  { success := false, error := some invalidElementMsg, primary := none,
    alternatives := [], element := none, analysis := none, context := none,
    timestamp := now }

/-- The terminal failure result returned when every strategy failed and the
fallback produced nothing. -/
def XPathGenerator.terminalResult (d : Doc) (e : Node) (analysis? : Option α)
    (now : Nat) : GenResult α :=
  { success := false, error := some terminalFailureMsg, primary := none,
    alternatives := [], element := some (XPathGenerator.elementInfo d e),
    analysis := analysis?, context := none, timestamp := now }

/-- The result the coordinator's `catch` builds from a caught exception. -/
def XPathGenerator.catchResult (d : Doc) (e : Node) (err : JsErr) (now : Nat) :
    GenResult α :=
  { success := false, error := some (caughtErrorPrefix ++ err.msg),
    primary := none, alternatives := [],
    element := some (XPathGenerator.elementInfo d e),
    analysis := none, context := none, timestamp := now }

/-- The success result built from a non-empty fallback expression. -/
def XPathGenerator.fallbackResult (d : Doc) (e : Node) (analysis : α)
    (fbx : String) (now : Nat) : GenResult α :=
  { success := true, error := none,
    primary := some { strategy := "fallback", xpath := fbx, score := 1, priority := 0 },
    alternatives := [], element := some (XPathGenerator.elementInfo d e),
    analysis := some analysis, context := none, timestamp := now }

/-- The success result built from the strategy manager's ranked output, as
cached: the spread `{...result}` plus the element summary, the analysis and
the timestamp. -/
def XPathGenerator.enhancedResult (d : Doc) (e : Node) (analysis : α)
    (result : SMResult α) (now : Nat) : GenResult α :=
  { success := result.success, error := none, primary := result.primary,
    alternatives := result.alternatives,
    element := some (XPathGenerator.elementInfo d e),
    analysis := some analysis, context := some result.context,
    timestamp := now }

/-- The body of `XPathGenerator.generateXPath` past the invalid-element guard
and the cache lookup.  The source wraps this region in `try`/`catch`; the
only sub-computations that can throw there are the analyzer call and the
fallback construction (the strategy manager catches its own per-strategy
exceptions, and the result shaping is pure), so the `catch` is embedded as
the `Except.error` arm of the analyzer match, and the inner `try` around the
fallback as the `Except.error` arm of the fallback match (which falls through
to the terminal failure result, as in the source). -/
def XPathGenerator.generateFresh (d : Doc) (analyze : Node → Except JsErr α)
    (strategies : List (Strategy α)) (fallbackFn : Node → Except JsErr String)
    (cache : Cache α) (now : Nat) (e : Node) (cacheKey : String) :
    GenResult α × Cache α :=
  match analyze e with
  | Except.error err => (XPathGenerator.catchResult d e err now, cache)
  | Except.ok analysis =>
    let result := StrategyManager.generateXPath d strategies e (some analysis)
    if result.success then
      let enhanced := XPathGenerator.enhancedResult d e analysis result now
      let cache2 := XPathGenerator.cleanupCache now
        (cacheSet cache cacheKey { data := enhanced, timestamp := now })
      (enhanced, cache2)
    else
      match fallbackFn e with
      | Except.ok fbx =>
        if fbx = "" then (XPathGenerator.terminalResult d e (some analysis) now, cache)
        else (XPathGenerator.fallbackResult d e analysis fbx now, cache)
      | Except.error _ =>
        (XPathGenerator.terminalResult d e (some analysis) now, cache)

/-- `XPathGenerator.generateXPath` (src/src/core/xpath-generator.js lines
19-132).  `analyze` stands for `elementAnalyzer.analyze` (it may throw),
`strategies` for the manager registry, `fallbackFn` for
`generateFallbackXPath` (kept abstract so that a throwing fallback is
expressible), `cache`/`now` for the mutable cache and the clock.  Sequence:
invalid-element guard, cache lookup within the TTL, then the guarded
generation body `generateFresh`. -/
def XPathGenerator.generateXPath (d : Doc) (analyze : Node → Except JsErr α)
    (strategies : List (Strategy α)) (fallbackFn : Node → Except JsErr String)
    (cache : Cache α) (now : Nat) (element? : Option Node) :
    GenResult α × Cache α :=
  match element? with
  | none => (XPathGenerator.invalidResult now, cache)
  | some e =>
    if d.tag e = "" then (XPathGenerator.invalidResult now, cache)
    else
      let cacheKey := XPathGenerator.generateCacheKey d e
      match cacheGet cache cacheKey with
      | some entry =>
        if now - entry.timestamp < 10000 then (entry.data, cache)
        else XPathGenerator.generateFresh d analyze strategies fallbackFn cache now e cacheKey
      | none => XPathGenerator.generateFresh d analyze strategies fallbackFn cache now e cacheKey

/-! ### Concrete documents and strategies used by the witnesses and
counterexamples -/

/-- A baseline document: every map constantly empty, every style visible. -/
def emptyDoc : Doc :=
  { tag := fun _ => "", idAttr := fun _ => "", className := fun _ => "",
    typeAttr := fun _ => "", roleAttr := fun _ => "", href := fun _ => "",
    display := fun _ => "block", visibility := fun _ => "visible",
    opacity := fun _ => "1", rectW := fun _ => 10, rectH := fun _ => 10,
    textChildren := fun _ => [], parent := fun _ => none,
    children := fun _ => [], body := 0, evalX := fun _ => none,
    attrs := fun _ => [], inShadowRoot := fun _ => false,
    reactMarker := fun _ => false, vueMarker := fun _ => false,
    ngMarker := fun _ => false, ariaLabel := fun _ => "",
    titleAttr := fun _ => "", classNameBaseVal := fun _ => "",
    firstUseHref := fun _ => "" }

/-- Body plus one attribute-less, text-less `div`. -/
def plainDoc : Doc :=
  { emptyDoc with
    tag := fun e => if e = 0 then "BODY" else if e = 1 then "DIV" else ""
    parent := fun e => if e = 1 then some 0 else none
    children := fun e => if e = 0 then [1] else [] }

/-- Body plus two sibling `span` nodes that carry the same visible text
`Hi`; the oracle resolves the text query to both, in document order. -/
def dupDoc : Doc :=
  { emptyDoc with
    tag := fun e => if e = 0 then "BODY" else if e ≤ 2 then "SPAN" else ""
    parent := fun e => if e = 1 || e = 2 then some 0 else none
    children := fun e => if e = 0 then [1, 2] else []
    textChildren := fun e => if e = 1 || e = 2 then ["Hi"] else []
    evalX := fun s =>
      if s = "//span[text()=" ++ sq ++ "Hi" ++ sq ++ "]" then some [1, 2]
      else if s = "//span[contains(text(), " ++ sq ++ "Hi" ++ sq ++ ")]" then some [1, 2]
      else if s = "//*[text()=" ++ sq ++ "Hi" ++ sq ++ " or contains(text(), "
        ++ sq ++ "Hi" ++ sq ++ ")]" then some [1, 2]
      else none }

/-- Body plus a single `span` with unique visible text `Hi`. -/
def uniqueDoc : Doc :=
  { emptyDoc with
    tag := fun e => if e = 0 then "BODY" else if e = 1 then "SPAN" else ""
    parent := fun e => if e = 1 then some 0 else none
    children := fun e => if e = 0 then [1] else []
    textChildren := fun e => if e = 1 then ["Hi"] else []
    evalX := fun s =>
      if s = "//span[text()=" ++ sq ++ "Hi" ++ sq ++ "]" then some [1]
      else if s = "//*[text()=" ++ sq ++ "Hi" ++ sq ++ " or contains(text(), "
        ++ sq ++ "Hi" ++ sq ++ ")]" then some [1]
      else none }

/-- A node whose bounding box is zero while its computed style is fully
visible, with one direct text child `x`. -/
def zeroBoxDoc : Doc :=
  { emptyDoc with
    tag := fun e => if e = 0 then "BODY" else if e = 1 then "DIV" else ""
    parent := fun e => if e = 1 then some 0 else none
    children := fun e => if e = 0 then [1] else []
    rectW := fun _ => 0, rectH := fun _ => 0
    textChildren := fun e => if e = 1 then ["x"] else [] }

/-- A `span` whose parent carries the machine-generated id `abcdef12` while
its grandparent carries the clean id `main`. -/
def randIdDoc : Doc :=
  { emptyDoc with
    tag := fun e =>
      if e = 0 then "BODY" else if e = 1 || e = 2 then "DIV"
      else if e = 3 then "SPAN" else ""
    idAttr := fun e => if e = 1 then "main" else if e = 2 then "abcdef12" else ""
    parent := fun e =>
      if e = 3 then some 2 else if e = 2 then some 1
      else if e = 1 then some 0 else none
    children := fun e =>
      if e = 0 then [1] else if e = 1 then [2] else if e = 2 then [3] else [] }

/-- A `span` with no id, attribute or text, six levels below an ancestor
whose id is `main` (the fallback scenario of the spec). -/
def chainDoc : Doc :=
  { emptyDoc with
    tag := fun e =>
      if e = 0 then "BODY" else if e = 1 then "SECTION"
      else if 2 ≤ e && e ≤ 6 then "DIV" else if e = 7 then "SPAN" else ""
    idAttr := fun e => if e = 1 then "main" else ""
    parent := fun e => if 1 ≤ e && e ≤ 7 then some (e - 1) else none
    children := fun e => if e ≤ 6 then [e + 1] else [] }

/-- Three sibling `span` nodes with the identical visible text `Active`
(the duplicate-text scenario of the spec); the target is node 2. -/
def tripleDoc : Doc :=
  { emptyDoc with
    tag := fun e => if e = 0 then "BODY" else if e = 1 then "DIV"
      else if 2 ≤ e && e ≤ 4 then "SPAN" else ""
    parent := fun e => if 2 ≤ e && e ≤ 4 then some 1
      else if e = 1 then some 0 else none
    children := fun e => if e = 0 then [1] else if e = 1 then [2, 3, 4] else []
    textChildren := fun e => if 2 ≤ e && e ≤ 4 then ["Active"] else []
    evalX := fun s =>
      if s = "//*[text()=" ++ sq ++ "Active" ++ sq ++ " or contains(text(), "
        ++ sq ++ "Active" ++ sq ++ ")]" then some [2, 3, 4]
      else none }

/-- A `div` whose class list holds the machine-generated token `_abcde1`. -/
def randClassDoc : Doc :=
  { plainDoc with className := fun e => if e = 1 then "btn _abcde1" else "" }

/-- Two bare `svg` icons under different `div` parents; each is the first
svg child of its own parent, so the global positional expression `//svg[1]`
resolves to both, in document order.  Node 4 is the clicked target. -/
def svgDoc : Doc :=
  { emptyDoc with
    tag := fun e =>
      if e = 0 then "BODY" else if e = 1 || e = 2 then "DIV"
      else if e = 3 || e = 4 then "svg" else ""
    parent := fun e =>
      if e = 3 then some 1 else if e = 4 then some 2
      else if e = 1 || e = 2 then some 0 else none
    children := fun e =>
      if e = 0 then [1, 2] else if e = 1 then [3] else if e = 2 then [4]
      else []
    evalX := fun s => if s = "//svg[1]" then some [3, 4] else none }

/-- The analyzer record for the bare icon at node 4: an svg root with no
aria-label, title, desc, viewBox, class, path or use element — every
formulation group of `SVGStrategy.generate` is empty. -/
def svgInfo4 : SvgInfo :=
  { isRoot := true, svgElement := 4, viewBox := "", width := ""
    height := "", hasTitle := false, hasDesc := false, titleText := ""
    descText := "", pathCount := 0, useElements := 0, hasAriaLabel := false
    ariaLabelText := "" }

def svgAnalysis4 : SvgAnalysis := ⟨⟨true, some svgInfo4⟩⟩

/-- The analyzer stub of the SVG run: analysis succeeds with the record
above. -/
def svgAnalyze : Node → Except JsErr SvgAnalysis :=
  fun _ => Except.ok svgAnalysis4

/-- The analyzer stub used by concrete runs: analysis succeeds with `()`. -/
def okAnalyze : Node → Except JsErr Unit := fun _ => Except.ok ()

/-- A strategy whose `isApplicable` raises. -/
def badStrategy : Strategy Unit :=
  { name := "bad", priority := 1
    isApplicable := fun _ _ _ => Except.error { msg := "boom" }
    generate := fun _ _ _ => Except.ok none
    getScore := fun _ _ _ => Except.ok 0 }

/-- A strategy that always emits the expression `//div` with score 7. -/
def trivialStrategy : Strategy Unit :=
  { name := "trivial", priority := 1
    isApplicable := fun _ _ _ => Except.ok true
    generate := fun _ _ _ => Except.ok (some ("//div"))
    getScore := fun _ _ _ => Except.ok 7 }

/-- A stub with the attribute strategy's name, applicable with score 100. -/
def attrStub : Strategy Unit :=
  { name := "attribute", priority := 100
    isApplicable := fun _ _ _ => Except.ok true
    generate := fun _ _ _ => Except.ok (some ("//x"))
    getScore := fun _ _ _ => Except.ok 100 }

/-- An analyzer that raises, for exercising the coordinator's catch. -/
def throwingAnalyze : Node → Except JsErr Unit :=
  fun _ => Except.error { msg := "boom" }

/-- The real, never-throwing fallback constructor of the given document,
as the coordinator's `fallbackFn`. -/
def realFallback (d : Doc) : Node → Except JsErr String :=
  fun x => Except.ok (XPathGenerator.generateFallbackXPath d x)

/-- The two consecutive runs of the C7 counterexample: no strategy applies,
so the first run succeeds through the fallback — and such results are not
cached. -/
def c7first : GenResult Unit × Cache Unit :=
  XPathGenerator.generateXPath plainDoc okAnalyze [] (realFallback plainDoc)
    [] 0 (some 1)

def c7second : GenResult Unit × Cache Unit :=
  XPathGenerator.generateXPath plainDoc okAnalyze [] (realFallback plainDoc)
    c7first.2 5 (some 1)

def c7secondAlt : GenResult Unit × Cache Unit :=
  XPathGenerator.generateXPath plainDoc okAnalyze [trivialStrategy]
    (realFallback plainDoc) c7first.2 5 (some 1)

/-- A strategy validates its output when every expression its `generate`
returns has passed `BaseStrategy.validateXPath` against the target. -/
def ValidatingStrategy {α : Type} (s : Strategy α) : Prop :=
  ∀ (d : Doc) (e : Node) (ctx : Ctx α) (xp : String),
    s.generate d e ctx = Except.ok (some xp) →
    BaseStrategy.validateXPath d xp e = true

/-- A chain witness for the walk: starting at `cur`, every listed node
(`cur` first, then `rest` in order) lies strictly below `document.body` and
has an empty id, each steps to the next by `parent`, and the parent of the
last listed node is `anchor`. -/
def noIdChainTo (d : Doc) : Node → Node → List Node → Bool
  | cur, anchor, [] =>
    cur != d.body && d.idAttr cur == "" && d.parent cur == some anchor
  | cur, anchor, c :: cs =>
    cur != d.body && d.idAttr cur == "" && d.parent cur == some c
      && noIdChainTo d c anchor cs

theorem mem_ordInsertB (le : α → α → Bool) (x z : α) (l : List α)
    (h : z ∈ ordInsertB le x l) : z = x ∨ z ∈ l := by
  induction l with
  | nil => simp [ordInsertB] at h; exact Or.inl h
  | cons y ys ih =>
    by_cases hc : le x y = true
    · simp [ordInsertB, hc] at h
      rcases h with h | h | h
      · exact Or.inl h
      · exact Or.inr (by simp [h])
      · exact Or.inr (by simp [h])
    · simp [ordInsertB, hc] at h
      rcases h with h | h
      · exact Or.inr (by simp [h])
      · rcases ih h with h1 | h1
        · exact Or.inl h1
        · exact Or.inr (by simp [h1])

theorem mem_insSortB (le : α → α → Bool) (z : α) (l : List α)
    (h : z ∈ insSortB le l) : z ∈ l := by
  induction l with
  | nil => simp [insSortB] at h
  | cons x xs ih =>
    rcases mem_ordInsertB le x z (insSortB le xs) h with h1 | h1
    · simp [h1]
    · exact List.mem_cons_of_mem x (ih h1)

theorem mem_enumFromL (n : Nat) (l : List α) (p : Nat × α)
    (h : p ∈ enumFromL n l) : n ≤ p.1 := by
  induction l generalizing n with
  | nil => simp [enumFromL] at h
  | cons x xs ih =>
    simp only [enumFromL, List.mem_cons] at h
    rcases h with h | h
    · simp [h]
    · exact Nat.le_of_succ_le (ih (n + 1) h)

theorem map_ordInsertB_lex (k : α → Int) (n : Nat) (x : α) (L : List (Nat × α))
    (h : ∀ q ∈ L, n < q.1) :
    (ordInsertB (lexKeyLe k) (n, x) L).map Prod.snd
      = ordInsertB (fun a b => decide (k b ≤ k a)) x (L.map Prod.snd) := by
  induction L with
  | nil => simp [ordInsertB]
  | cons q L2 ih =>
    have hq : n < q.1 := h q (List.mem_cons_self q L2)
    have hrest : ∀ r ∈ L2, n < r.1 := fun r hr => h r (List.mem_cons_of_mem q hr)
    have hcmp : lexKeyLe k (n, x) q = decide (k q.2 ≤ k x) := by
      simp only [lexKeyLe]
      by_cases h1 : k q.2 < k x
      · simp [h1, Int.le_of_lt h1]
      · by_cases h2 : k x = k q.2
        · simp [h1, h2, Nat.le_of_lt hq, Int.le_of_eq h2.symm]
        · have h3 : ¬ k q.2 ≤ k x := fun hle =>
            h2 (Int.le_antisymm (Int.not_lt.mp h1) hle)
          simp [h1, h2, h3]
    by_cases hc : k q.2 ≤ k x
    · simp [ordInsertB, hcmp, hc]
    · simp [ordInsertB, hcmp, hc, ih hrest]

theorem map_insSortB_lex (k : α → Int) (l : List α) (n : Nat) :
    (insSortB (lexKeyLe k) (enumFromL n l)).map Prod.snd
      = insSortB (fun a b => decide (k b ≤ k a)) l := by
  induction l generalizing n with
  | nil => simp [insSortB, enumFromL]
  | cons x xs ih =>
    have hidx : ∀ q ∈ insSortB (lexKeyLe k) (enumFromL (n + 1) xs), n < q.1 :=
      fun q hq =>
        Nat.lt_of_succ_le (mem_enumFromL (n + 1) xs q (mem_insSortB _ q _ hq))
    calc (insSortB (lexKeyLe k) (enumFromL n (x :: xs))).map Prod.snd
        = (ordInsertB (lexKeyLe k) (n, x)
            (insSortB (lexKeyLe k) (enumFromL (n + 1) xs))).map Prod.snd := by
          simp [insSortB, enumFromL]
      _ = ordInsertB (fun a b => decide (k b ≤ k a)) x
            ((insSortB (lexKeyLe k) (enumFromL (n + 1) xs)).map Prod.snd) :=
          map_ordInsertB_lex k n x _ hidx
      _ = insSortB (fun a b => decide (k b ≤ k a)) (x :: xs) := by
          rw [ih (n + 1)]; rfl

/-- The JS stable sort by key descending is exactly the ranking the spec
describes: key descending, ties in original order. -/
theorem jsSortBy_eq_rankSpecBy (k : α → Int) (l : List α) :
    jsSortBy k l = rankSpecBy k l :=
  (map_insSortB_lex k l 0).symm

/-- Whatever the inputs, `detectDuplicateText` answers with the
no-duplicates default: the missing `getElementIndexInDuplicates` raises
before the record is built, and the `catch` swallows the error. -/
theorem detectDuplicateText_const (d : Doc) (text : String) (target : Node) :
    TextStrategy.detectDuplicateText d text target
      = { hasDuplicates := false, count := 1, elements := [], targetIndex := 0 } := by
  unfold TextStrategy.detectDuplicateText
  dsimp only
  cases d.evalX ("//*[text()=" ++ Utils.escapeXPath text ++ " or contains(text(), "
    ++ Utils.escapeXPath text ++ ")]") with
  | none => rfl
  | some ns => rfl

/-! ### Behaviour of one strategy slot inside the manager loop -/

/-- When any of a strategy's three methods raises, the per-strategy `try` of
the manager catches it and the strategy contributes no candidate. -/
theorem runStrategy_eq_none_of_throw {α : Type} (d : Doc) (hr : Bool) (e : Node)
    (ctx : Ctx α) (s : Strategy α)
    (h : (∃ er, s.isApplicable d e ctx = Except.error er)
       ∨ (∃ er, s.generate d e ctx = Except.error er)
       ∨ (∃ er, s.getScore d e ctx = Except.error er)) :
    runStrategy d hr e ctx s = none := by
  unfold runStrategy
  split
  · rfl
  · rfl
  · rename_i happ
    split
    · rfl
    · rfl
    · rename_i xp hgen
      split
      · rfl
      · rename_i hxp
        split
        · rfl
        · rename_i sc hsc
          rcases h with ⟨er, hc⟩ | ⟨er, hc⟩ | ⟨er, hc⟩
          · rw [happ] at hc; exact absurd hc (by simp)
          · rw [hgen] at hc; exact absurd hc (by simp)
          · rw [hsc] at hc; exact absurd hc (by simp)

/-- Inversion of a successful strategy slot: the candidate's fields come from
the strategy's own methods, with the random-class penalty applied exactly
when the flag is set and the strategy is the attribute strategy. -/
theorem runStrategy_some_inv {α : Type} (d : Doc) (hr : Bool) (e : Node)
    (ctx : Ctx α) (s : Strategy α) (c : Candidate)
    (h : runStrategy d hr e ctx s = some c) :
    s.isApplicable d e ctx = Except.ok true
    ∧ s.generate d e ctx = Except.ok (some c.xpath)
    ∧ c.xpath ≠ ""
    ∧ c.strategy = s.name
    ∧ c.priority = s.priority
    ∧ ∃ score0, s.getScore d e ctx = Except.ok score0
        ∧ c.score = score0 - (if hr && s.name == "attribute" then 50 else 0) := by
  unfold runStrategy at h
  split at h
  · exact Option.noConfusion h
  · exact Option.noConfusion h
  · rename_i happ
    split at h
    · exact Option.noConfusion h
    · exact Option.noConfusion h
    · rename_i xp hgen
      split at h
      · exact Option.noConfusion h
      · rename_i hxp
        split at h
        · exact Option.noConfusion h
        · rename_i sc hsc
          injection h with hc
          subst hc
          refine ⟨happ, hgen, hxp, rfl, rfl, sc, hsc, ?_⟩
          by_cases hattr : (hr && s.name == "attribute") = true
          · simp [hattr]
          · simp [hattr]

/-- C3: per-strategy error containment.  If one strategy's `isApplicable`,
`generate` or `getScore` raises an exception, the manager's result is exactly
the result computed from the registry without that strategy: every other
strategy's candidate survives, in the same order, and generation is not
aborted. -/
theorem C3_per_strategy_containment {α : Type} (d : Doc) (e : Node)
    (analysis? : Option α) (xs ys : List (Strategy α)) (bad : Strategy α)
    (hthrow :
      (∃ er, bad.isApplicable d e (StrategyManager.buildContext d e analysis?)
        = Except.error er)
      ∨ (∃ er, bad.generate d e (StrategyManager.buildContext d e analysis?)
        = Except.error er)
      ∨ (∃ er, bad.getScore d e (StrategyManager.buildContext d e analysis?)
        = Except.error er)) :
    StrategyManager.generateXPath d (xs ++ bad :: ys) e analysis?
      = StrategyManager.generateXPath d (xs ++ ys) e analysis? := by
  have hnone : runStrategy d (hasRandomClasses d e) e
      (StrategyManager.buildContext d e analysis?) bad = none :=
    runStrategy_eq_none_of_throw d (hasRandomClasses d e) e _ bad hthrow
  unfold StrategyManager.generateXPath
  simp [List.filterMap_append, List.filterMap_cons, hnone]

/-- C9: ranking and tie-break.  The manager's primary is the head of the
produced candidates ranked by score descending with ties broken by original
emission (registry) order, its alternatives are exactly the next two of that
ranking, success holds exactly when some candidate was produced; and the
registry built by `registerStrategy` is the stable priority-descending sort
of the registrations, so the seven concrete strategies end up in registration
order with `container-context` kept ahead of the equal-priority
`shadow-dom`. -/
theorem C9_ranking {α : Type} (d : Doc) (strategies : List (Strategy α))
    (e : Node) (analysis? : Option α) (l : List (String × Int))
    (s : String × Int) :
    ((StrategyManager.generateXPath d strategies e analysis?).primary
        = (rankSpecBy (fun c : Candidate => c.score)
            (strategies.filterMap (runStrategy d (hasRandomClasses d e) e
              (StrategyManager.buildContext d e analysis?)))).head?)
    ∧ ((StrategyManager.generateXPath d strategies e analysis?).alternatives
        = ((rankSpecBy (fun c : Candidate => c.score)
            (strategies.filterMap (runStrategy d (hasRandomClasses d e) e
              (StrategyManager.buildContext d e analysis?)))).drop 1).take 2)
    ∧ ((StrategyManager.generateXPath d strategies e analysis?).success = true
        ↔ strategies.filterMap (runStrategy d (hasRandomClasses d e) e
            (StrategyManager.buildContext d e analysis?)) ≠ [])
    ∧ registerStrategy (fun p : String × Int => p.2) l s
        = rankSpecBy (fun p : String × Int => p.2) (l ++ [s])
    ∧ builtRegistry = registrationOrder := by
  refine ⟨?_, ?_, ?_, jsSortBy_eq_rankSpecBy _ _, by decide⟩
  · unfold StrategyManager.generateXPath
    simp [jsSortBy_eq_rankSpecBy]
  · unfold StrategyManager.generateXPath
    simp [jsSortBy_eq_rankSpecBy]
  · unfold StrategyManager.generateXPath
    simp [List.isEmpty_iff]

/-- C8: random-class penalty.  A candidate that a strategy slot produces
carries exactly the strategy's own score minus 50 when the element's class
list contains a machine-generated token (`hasRandomClasses`) and the strategy
is the one named `attribute`, and exactly the unmodified score in every other
case — in particular the scores of candidates from every other strategy are
unchanged by the adjustment. -/
theorem C8_random_class_penalty {α : Type} (d : Doc) (e : Node) (ctx : Ctx α)
    (s : Strategy α) (c : Candidate) (score0 : Int)
    (hrun : runStrategy d (hasRandomClasses d e) e ctx s = some c)
    (hscore : s.getScore d e ctx = Except.ok score0) :
    c.score = score0 - (if hasRandomClasses d e && s.name == "attribute" then 50 else 0)
    ∧ c.strategy = s.name := by
  obtain ⟨_, _, _, hname, _, sc, hsc, heq⟩ :=
    runStrategy_some_inv d (hasRandomClasses d e) e ctx s c hrun
  rw [hscore] at hsc
  injection hsc with h1
  exact ⟨by rw [heq, h1], hname⟩

/-- C1 counterexample, refuting both halves of the claim.  (1) The
singleton half: on two sibling spans sharing the text `Hi`, the run succeeds
with the text strategy's expression as primary, yet the oracle resolves that
expression to both spans — a two-element set, not a singleton; validation
(`BaseStrategy.validateXPath`) accepted it because the target is the first
match in document order.  (2) The every-candidate-validated half: on two
bare svg icons under different parents, the run succeeds with the SVG
strategy's terminal positional expression `//svg[1]` as primary — an
expression that `SVGStrategy.generate` (part_002 line 96) returned without
ever consulting the oracle and that carries no provisional `fallback` mark —
and that expression does not even first-match the target: the oracle
resolves it to both icons with the other icon first, so
`BaseStrategy.validateXPath`, had it been called, would have rejected it. -/
theorem C1_counterexample :
    ((XPathGenerator.generateXPath dupDoc okAnalyze [textStrategy]
        (realFallback dupDoc) [] 0 (some 1)).1.success = true)
    ∧ ((XPathGenerator.generateXPath dupDoc okAnalyze [textStrategy]
        (realFallback dupDoc) [] 0 (some 1)).1.primary
      = some { strategy := "text", xpath := "//span[text()=" ++ sq ++ "Hi" ++ sq ++ "]",
               score := 360, priority := 110 })
    ∧ dupDoc.evalX ("//span[text()=" ++ sq ++ "Hi" ++ sq ++ "]") = some [1, 2]
    ∧ dupDoc.evalX ("//span[text()=" ++ sq ++ "Hi" ++ sq ++ "]") ≠ some [1]
    ∧ (svgStrategy.generate svgDoc 4
        (StrategyManager.buildContext svgDoc 4 (some svgAnalysis4))
      = Except.ok (some ("//svg[1]")))
    ∧ ((XPathGenerator.generateXPath svgDoc svgAnalyze [svgStrategy]
        (realFallback svgDoc) [] 0 (some 4)).1.success = true)
    ∧ ((XPathGenerator.generateXPath svgDoc svgAnalyze [svgStrategy]
        (realFallback svgDoc) [] 0 (some 4)).1.primary
      = some { strategy := "svg", xpath := "//svg[1]", score := 85,
               priority := 85 })
    ∧ BaseStrategy.validateXPath svgDoc ("//svg[1]") 4 = false
    ∧ svgDoc.evalX ("//svg[1]") = some [3, 4] := by
  refine ⟨by decide, by decide, by decide, by decide, by rfl, by decide,
    by decide, by decide, by decide⟩

/-- C2 counterexample: when the analyzer raises, the coordinator's catch
returns a third kind of `success=false` result — the error message is the
caught-exception report, neither the invalid-element message nor the terminal
fallback-failure message. -/
theorem C2_counterexample :
    ((XPathGenerator.generateXPath plainDoc throwingAnalyze []
        (realFallback plainDoc) [] 0 (some 1)).1.success = false)
    ∧ ((XPathGenerator.generateXPath plainDoc throwingAnalyze []
        (realFallback plainDoc) [] 0 (some 1)).1.error
      = some (caughtErrorPrefix ++ "boom"))
    ∧ ((XPathGenerator.generateXPath plainDoc throwingAnalyze []
        (realFallback plainDoc) [] 0 (some 1)).1.error ≠ some invalidElementMsg)
    ∧ ((XPathGenerator.generateXPath plainDoc throwingAnalyze []
        (realFallback plainDoc) [] 0 (some 1)).1.error ≠ some terminalFailureMsg) := by
  refine ⟨by decide, by decide, by decide, by decide⟩

/-- C4: the duplicate-text scenario of the spec — three sibling spans with
identical text `Active` — where the claim requires `hasDuplicates = true,
count = 3` and escalation.  The oracle does report all three spans, yet
`detectDuplicateText` answers `hasDuplicates = false, count = 1`: the record
it builds calls the missing method `getElementIndexInDuplicates`, the
`TypeError` is swallowed by its own catch, and — as the last two conjuncts
show for every input — duplicate detection always yields the default and the
escalation `generateContextAwareXPath` always raises (its generators are
missing from the repository), so it can never produce a candidate. -/
theorem C4_divergence_at_failing_input :
    (TextStrategy.detectDuplicateText tripleDoc ("Active") 2
      = { hasDuplicates := false, count := 1, elements := [], targetIndex := 0 })
    ∧ (tripleDoc.evalX ("//*[text()=" ++ sq ++ "Active" ++ sq ++ " or contains(text(), "
        ++ sq ++ "Active" ++ sq ++ ")]") = some [2, 3, 4])
    ∧ (∀ (d : Doc) (t : String) (e : Node),
        TextStrategy.detectDuplicateText d t e
          = { hasDuplicates := false, count := 1, elements := [], targetIndex := 0 })
    ∧ (∀ (d : Doc) (e : Node) (text : String) (dup : DupInfo),
        TextStrategy.generateContextAwareXPath d e text dup
          = Except.error { msg := "this.generateContainerBasedXPath is not a function" }) := by
  refine ⟨detectDuplicateText_const tripleDoc ("Active") 2, by decide,
    detectDuplicateText_const, ?_⟩
  intro d e text dup
  rfl

/-- C5 counterexample: a node with a zero bounding box but fully visible
computed style still yields its text — the zero-box clause of the claim is
not checked by `getVisibleText`. -/
theorem C5_counterexample :
    Utils.getVisibleText zeroBoxDoc (some 1) = "x"
    ∧ zeroBoxDoc.rectW 1 = 0 ∧ zeroBoxDoc.rectH 1 = 0
    ∧ zeroBoxDoc.display 1 = "block" ∧ zeroBoxDoc.visibility 1 = "visible"
    ∧ zeroBoxDoc.opacity 1 = "1"
    ∧ Utils.getVisibleText zeroBoxDoc (some 1) ≠ "" := by decide

/-- C6 counterexample: the fallback walk anchors at the first ancestor with
any non-empty id — here the machine-generated `abcdef12` — even though the
trustworthy id `main` sits one level above; the path the claim describes
(anchored at the trustworthy ancestor) is not produced. -/
theorem C6_counterexample :
    XPathGenerator.generateFallbackXPath randIdDoc 3
      = "///div[@id=" ++ sq ++ "abcdef12" ++ sq ++ "]/span[1]"
    ∧ randIdDoc.idAttr 2 = "abcdef12"
    ∧ Utils.isRandomGeneratedValue (randIdDoc.idAttr 2) = true
    ∧ randIdDoc.idAttr 1 = "main"
    ∧ Utils.isRandomGeneratedValue (randIdDoc.idAttr 1) = false
    ∧ XPathGenerator.generateFallbackXPath randIdDoc 3
        ≠ "///div[@id=" ++ sq ++ "main" ++ sq ++ "]/div[1]/span[1]" := by decide

/-- C7 counterexample: two calls on the same unchanged node, 5 time units
apart (well inside the TTL).  The first succeeds via the fallback, which the
coordinator does not cache, so the second call recomputes: the results differ
(their timestamps are 0 and 5 — not bit-identical), and the second call does
re-execute strategies, as registering a strategy between the calls changes
its outcome. -/
theorem C7_counterexample :
    c7first.1.success = true
    ∧ c7first.1.primary = some ⟨"fallback", "/div[1]", 1, 0⟩
    ∧ c7first.1.timestamp = 0
    ∧ c7second.1.timestamp = 5
    ∧ c7first.1 ≠ c7second.1
    ∧ c7secondAlt.1.primary = some ⟨"trivial", "//div", 7, 1⟩
    ∧ c7secondAlt.1.primary ≠ c7second.1.primary := by decide

/-- The text strategy validates its output: its `generate` only ever returns
the first formulation accepted by `validateXPath` (the duplicate-escalation
branch always raises and so never returns an expression). -/
theorem textStrategy_validating {α : Type} :
    ValidatingStrategy (textStrategy : Strategy α) := by
  intro d e ctx xp hgen
  by_cases htext : jsTrim (Utils.getVisibleText d (some e)) = ""
  · simp [textStrategy, TextStrategy.generate, htext, detectDuplicateText_const] at hgen
  · simp [textStrategy, TextStrategy.generate, htext, detectDuplicateText_const] at hgen
    have h2 := List.find?_some hgen
    simpa using h2

/-- The primary candidate of the strategy manager, when there is one, was
produced by one of the registered strategies' slots. -/
theorem SM_primary_mem {α : Type} (d : Doc) (strategies : List (Strategy α))
    (e : Node) (analysis? : Option α) (cand : Candidate)
    (h : (StrategyManager.generateXPath d strategies e analysis?).primary
      = some cand) :
    ∃ s ∈ strategies, runStrategy d (hasRandomClasses d e) e
      (StrategyManager.buildContext d e analysis?) s = some cand := by
  simp only [StrategyManager.generateXPath] at h
  have hmem : cand ∈ jsSortBy (fun c : Candidate => c.score)
      (strategies.filterMap (runStrategy d (hasRandomClasses d e) e
        (StrategyManager.buildContext d e analysis?))) := by
    cases hsort : jsSortBy (fun c : Candidate => c.score)
        (strategies.filterMap (runStrategy d (hasRandomClasses d e) e
          (StrategyManager.buildContext d e analysis?))) with
    | nil => rw [hsort] at h; exact Option.noConfusion h
    | cons a t =>
      rw [hsort] at h
      injection h with h1
      subst h1
      exact List.mem_cons_self a t
  have hmem2 := mem_insSortB _ cand _ hmem
  exact List.mem_filterMap.mp hmem2

/-- C1 amended.  Oracle validation (`BaseStrategy.validateXPath`) checks
only the FIRST match (`FIRST_ORDERED_NODE_TYPE`), not uniqueness, and the
claim's every-candidate-validated invariant is not program-wide:
`SVGStrategy.generate` (part_002 line 96) hands the ranker its terminal
positional expression without any oracle check or provisional mark, and it
validates its other formulations against the svg root rather than the
clicked target — both exhibited concretely in `C1_counterexample`.  The
round trip therefore holds exactly in the scope this theorem states: for a
coordinator run from an empty cache whose registered strategies all validate
their output (`ValidatingStrategy` — the text strategy provably does,
`textStrategy_validating`, while the SVG strategy does not), a primary
candidate not marked as the provisional fallback has passed first-match
validation: evaluating its expression against the whole document scope
succeeds and the first member of the resulting ordered set is the original
target node. -/
theorem C1_amended {α : Type} (d : Doc) (analyze : Node → Except JsErr α)
    (strategies : List (Strategy α)) (fallbackFn : Node → Except JsErr String)
    (now : Nat) (e : Node) (cand : Candidate)
    (hval : ∀ s ∈ strategies, ValidatingStrategy s)
    (hprim : (XPathGenerator.generateXPath d analyze strategies fallbackFn
        [] now (some e)).1.primary = some cand)
    (hnotfb : cand.strategy ≠ "fallback") :
    ∃ nodes, d.evalX cand.xpath = some nodes ∧ nodes.head? = some e := by
  have hred : XPathGenerator.generateXPath d analyze strategies fallbackFn
      [] now (some e)
      = if d.tag e = "" then (XPathGenerator.invalidResult now, ([] : Cache α))
        else XPathGenerator.generateFresh d analyze strategies fallbackFn
          [] now e (XPathGenerator.generateCacheKey d e) := rfl
  rw [hred] at hprim
  by_cases htag : d.tag e = ""
  · rw [if_pos htag] at hprim
    exact absurd hprim (by simp [XPathGenerator.invalidResult])
  · rw [if_neg htag] at hprim
    simp only [XPathGenerator.generateFresh] at hprim
    split at hprim
    · exact absurd hprim (by simp [XPathGenerator.catchResult])
    · rename_i a hana
      split at hprim
      · rename_i hsucc
        simp only [XPathGenerator.enhancedResult] at hprim
        obtain ⟨s, hs, hrun⟩ := SM_primary_mem d strategies e (some a) cand hprim
        obtain ⟨_, hgen, _, _, _, _, _, _⟩ :=
          runStrategy_some_inv d (hasRandomClasses d e) e _ s cand hrun
        have hvalid := hval s hs d e
          (StrategyManager.buildContext d e (some a)) cand.xpath hgen
        unfold BaseStrategy.validateXPath at hvalid
        cases heval : d.evalX cand.xpath with
        | none => rw [heval] at hvalid; exact Bool.noConfusion hvalid
        | some nodes =>
          rw [heval] at hvalid
          exact ⟨nodes, rfl, by simpa using hvalid⟩
      · rename_i hsucc
        split at hprim
        · rename_i fbx hfb
          split at hprim
          · exact absurd hprim (by simp [XPathGenerator.terminalResult])
          · simp only [XPathGenerator.fallbackResult, Option.some.injEq] at hprim
            exact absurd (congrArg Candidate.strategy hprim.symm) hnotfb
        · exact absurd hprim (by simp [XPathGenerator.terminalResult])

/-- C1 amended, witnessed on the single-span document: the text strategy's
validated primary resolves with the target as first (here: only) match. -/
theorem C1_amended_witness :
    ∃ nodes, uniqueDoc.evalX ("//span[text()=" ++ sq ++ "Hi" ++ sq ++ "]")
      = some nodes ∧ nodes.head? = some 1 :=
  C1_amended uniqueDoc okAnalyze [textStrategy] (realFallback uniqueDoc) 0 1
    { strategy := "text", xpath := "//span[text()=" ++ sq ++ "Hi" ++ sq ++ "]",
      score := 360, priority := 110 }
    (fun s hs => by
      rw [List.mem_singleton.mp hs]
      exact textStrategy_validating)
    (by decide) (by decide)

/-- C2 amended: on an empty cache the coordinator is a total function (the
embedding returns a structured `GenResult` on every input, including a
throwing analyzer, a failing strategy manager and a throwing fallback, so no
exception reaches the caller); a null element or an element without a tag
yields exactly the invalid-element result; and every `success=false` result
is one of three — the invalid-element result, the terminal fallback failure,
or the catch-all error result produced from a caught exception.  (The claim
listed only the first two; `C2_counterexample` shows the third is real.) -/
theorem C2_amended {α : Type} (d : Doc) (analyze : Node → Except JsErr α)
    (strategies : List (Strategy α)) (fallbackFn : Node → Except JsErr String)
    (now : Nat) (element? : Option Node) :
    ((element? = none →
      (XPathGenerator.generateXPath d analyze strategies fallbackFn
        [] now element?).1 = XPathGenerator.invalidResult now)
    ∧ (∀ e, element? = some e → d.tag e = "" →
      (XPathGenerator.generateXPath d analyze strategies fallbackFn
        [] now element?).1 = XPathGenerator.invalidResult now)
    ∧ ((XPathGenerator.generateXPath d analyze strategies fallbackFn
        [] now element?).1.success = false →
      (XPathGenerator.generateXPath d analyze strategies fallbackFn
        [] now element?).1.error = some invalidElementMsg
      ∨ (XPathGenerator.generateXPath d analyze strategies fallbackFn
        [] now element?).1.error = some terminalFailureMsg
      ∨ ∃ m, (XPathGenerator.generateXPath d analyze strategies fallbackFn
        [] now element?).1.error = some (caughtErrorPrefix ++ m))) := by
  cases element? with
  | none =>
    refine ⟨fun _ => rfl, by simp, fun _ => Or.inl rfl⟩
  | some e =>
    have hred : XPathGenerator.generateXPath d analyze strategies fallbackFn
        [] now (some e)
        = if d.tag e = "" then (XPathGenerator.invalidResult now, ([] : Cache α))
          else XPathGenerator.generateFresh d analyze strategies fallbackFn
            [] now e (XPathGenerator.generateCacheKey d e) := rfl
    refine ⟨by simp, ?_, ?_⟩
    · intro e2 he htag
      injection he with he2
      subst he2
      rw [hred, if_pos htag]
    · intro hfail
      by_cases htag : d.tag e = ""
      · rw [hred, if_pos htag]
        exact Or.inl rfl
      · rw [hred, if_neg htag] at hfail ⊢
        clear hred
        simp only [XPathGenerator.generateFresh] at hfail ⊢
        cases hana : analyze e with
        | error err =>
          rw [hana] at hfail
          dsimp only at hfail ⊢
          exact Or.inr (Or.inr ⟨err.msg, rfl⟩)
        | ok a =>
          rw [hana] at hfail
          dsimp only at hfail ⊢
          by_cases hsucc :
              (StrategyManager.generateXPath d strategies e (some a)).success = true
          · rw [if_pos hsucc] at hfail
            simp only [XPathGenerator.enhancedResult] at hfail
            rw [hsucc] at hfail
            exact Bool.noConfusion hfail
          · rw [if_neg hsucc] at hfail ⊢
            cases hfb : fallbackFn e with
            | ok fbx =>
              rw [hfb] at hfail
              dsimp only at hfail ⊢
              by_cases hempty : fbx = ""
              · rw [if_pos hempty]
                exact Or.inr (Or.inl rfl)
              · rw [if_neg hempty] at hfail
                simp only [XPathGenerator.fallbackResult] at hfail
                exact Bool.noConfusion hfail
            | error err =>
              rw [hfb] at hfail
              dsimp only at hfail ⊢
              exact Or.inr (Or.inl rfl)

/-- C5 amended: the visible text is empty whenever the computed style says
`display:none`, `visibility:hidden` or `opacity:0`; otherwise it is the
trimmed space-join of the node's trimmed direct text-node children
(descendant-element text excluded by construction); and it never depends on
the bounding box — replacing the box maps leaves it unchanged, so a zero box
does not force emptiness (the claim's fourth clause; see
`C5_counterexample`). -/
theorem C5_amended (d : Doc) (e : Node) (rW rH : Node → Nat) :
    ((d.display e = "none" ∨ d.visibility e = "hidden" ∨ d.opacity e = "0") →
      Utils.getVisibleText d (some e) = "")
    ∧ (d.display e ≠ "none" → d.visibility e ≠ "hidden" → d.opacity e ≠ "0" →
      Utils.getVisibleText d (some e)
        = jsTrim (String.intercalate (" ") ((d.textChildren e).map jsTrim)))
    ∧ Utils.getVisibleText { d with rectW := rW, rectH := rH } (some e)
        = Utils.getVisibleText d (some e) := by
  refine ⟨?_, ?_, by cases d; rfl⟩
  · intro h
    unfold Utils.getVisibleText
    rcases h with h | h | h <;> simp [h]
  · intro h1 h2 h3
    unfold Utils.getVisibleText
    simp [h1, h2, h3]

/-! ### The fallback walk, characterized -/

/-- One unfolding step of the fuelled fallback walk. -/
theorem fallbackSegsFuel_step (d : Doc) (fuel : Nat) (cur : Node) :
    fallbackSegsFuel d (fuel + 1) (some cur)
      = if cur = d.body then []
        else if d.idAttr cur ≠ "" then [fallbackAnchorSeg d cur]
        else fallbackSeg d cur :: fallbackSegsFuel d fuel (d.parent cur) := rfl

/-- Along a no-id chain the walk emits one positional segment per chain node
and stops at the anchor — the first node with a non-empty id — emitting its
id-anchored segment, provided the fuel covers the chain. -/
theorem fallbackSegsFuel_chain (d : Doc) :
    ∀ (cs : List Node) (e anchor : Node) (fuel : Nat),
      noIdChainTo d e anchor cs = true →
      anchor ≠ d.body → d.idAttr anchor ≠ "" →
      cs.length + 2 ≤ fuel →
      fallbackSegsFuel d fuel (some e)
        = (e :: cs).map (fallbackSeg d) ++ [fallbackAnchorSeg d anchor] := by
  intro cs
  induction cs with
  | nil =>
    intro e anchor fuel hchain hanb haid hfuel
    obtain ⟨f, rfl⟩ : ∃ f, fuel = f + 1 + 1 := ⟨fuel - 2, by omega⟩
    simp only [noIdChainTo, Bool.and_eq_true, bne_iff_ne, beq_iff_eq] at hchain
    obtain ⟨⟨hnb, hid⟩, hpar⟩ := hchain
    rw [fallbackSegsFuel_step, if_neg hnb, if_neg (not_not_intro hid), hpar]
    rw [fallbackSegsFuel_step, if_neg hanb, if_pos haid]
    simp
  | cons c cs ih =>
    intro e anchor fuel hchain hanb haid hfuel
    obtain ⟨f, rfl⟩ : ∃ f, fuel = f + 1 := ⟨fuel - 1, by omega⟩
    simp only [noIdChainTo, Bool.and_eq_true, bne_iff_ne, beq_iff_eq] at hchain
    obtain ⟨⟨⟨hnb, hid⟩, hpar⟩, hrest⟩ := hchain
    rw [fallbackSegsFuel_step, if_neg hnb, if_neg (not_not_intro hid), hpar]
    rw [ih c anchor f hrest hanb haid (by simp at hfuel ⊢; omega)]
    simp

/-- The fallback expression always has positive length: either `//tag` or a
`/`-prefixed joined path. -/
theorem fallback_len_pos (d : Doc) (e : Node) :
    0 < (XPathGenerator.generateFallbackXPath d e).length := by
  simp only [XPathGenerator.generateFallbackXPath]
  by_cases hp : ((fallbackSegsFuel d (e + 1) (some e)).reverse).isEmpty
  · rw [if_pos hp, String.length_append]
    have h2 : ("//" : String).length = 2 := rfl
    omega
  · rw [if_neg hp, String.length_append]
    have h1 : ("/" : String).length = 1 := rfl
    omega

/-- The fallback expression is never the empty string. -/
theorem fallback_ne_empty (d : Doc) (e : Node) :
    XPathGenerator.generateFallbackXPath d e ≠ "" := by
  intro h
  have hlen := fallback_len_pos d e
  rw [h] at hlen
  simp at hlen

/-- When the element has a tag, the cache misses, analysis succeeds and the
strategy manager produces no candidate, the coordinator run with the real
(never-throwing) fallback returns exactly the fallback success result — the
terminal failure is unreachable on this path. -/
theorem coordinator_fallback_case {α : Type} (d : Doc)
    (analyze : Node → Except JsErr α) (strategies : List (Strategy α))
    (now : Nat) (e : Node) (a : α)
    (htag : d.tag e ≠ "") (hana : analyze e = Except.ok a)
    (hfail : (StrategyManager.generateXPath d strategies e (some a)).success = false) :
    (XPathGenerator.generateXPath d analyze strategies (realFallback d)
        [] now (some e)).1
      = XPathGenerator.fallbackResult d e a
          (XPathGenerator.generateFallbackXPath d e) now := by
  have hred : XPathGenerator.generateXPath d analyze strategies (realFallback d)
      [] now (some e)
      = if d.tag e = "" then (XPathGenerator.invalidResult now, ([] : Cache α))
        else XPathGenerator.generateFresh d analyze strategies (realFallback d)
          [] now e (XPathGenerator.generateCacheKey d e) := rfl
  rw [hred, if_neg htag]
  simp only [XPathGenerator.generateFresh]
  rw [hana]
  dsimp only
  rw [if_neg (by rw [hfail]; exact Bool.false_ne_true)]
  simp only [realFallback]
  rw [if_neg (fallback_ne_empty d e)]

/-- C6 amended: the position-based fallback walks the chain from the element
itself upwards, emitting one `tag[index]` segment per level, and anchors with
an id predicate at the FIRST node whose id attribute is non-empty — any
non-empty id, with no trustworthiness check (`C6_counterexample` shows a
machine-generated id wins over a clean one above it).  In particular, for a
node whose chain up to such an ancestor is id-less, and on which no strategy
produced a candidate, generation returns `success = true` with strategy name
`fallback` and the fixed minimal score 1, carrying that anchored
position-indexed path. -/
theorem C6_amended {α : Type} (d : Doc) (analyze : Node → Except JsErr α)
    (strategies : List (Strategy α)) (now : Nat) (e anchor : Node)
    (cs : List Node) (a : α)
    (hchain : noIdChainTo d e anchor cs = true)
    (hanb : anchor ≠ d.body) (haid : d.idAttr anchor ≠ "")
    (hfuel : cs.length + 1 ≤ e)
    (htag : d.tag e ≠ "")
    (hana : analyze e = Except.ok a)
    (hfail : (StrategyManager.generateXPath d strategies e (some a)).success = false) :
    (XPathGenerator.generateFallbackXPath d e
      = "/" ++ String.intercalate ("/")
          (fallbackAnchorSeg d anchor :: ((e :: cs).reverse.map (fallbackSeg d))))
    ∧ (XPathGenerator.generateXPath d analyze strategies (realFallback d)
        [] now (some e)).1.success = true
    ∧ (XPathGenerator.generateXPath d analyze strategies (realFallback d)
        [] now (some e)).1.primary
      = some { strategy := "fallback"
               xpath := "/" ++ String.intercalate ("/")
                 (fallbackAnchorSeg d anchor :: ((e :: cs).reverse.map (fallbackSeg d)))
               score := 1
               priority := 0 } := by
  have hpath : XPathGenerator.generateFallbackXPath d e
      = "/" ++ String.intercalate ("/")
          (fallbackAnchorSeg d anchor :: ((e :: cs).reverse.map (fallbackSeg d))) := by
    simp only [XPathGenerator.generateFallbackXPath]
    rw [fallbackSegsFuel_chain d cs e anchor (e + 1) hchain hanb haid (by omega)]
    simp [List.reverse_append, List.map_reverse]
  have hcase := coordinator_fallback_case d analyze strategies now e a htag hana hfail
  refine ⟨hpath, ?_, ?_⟩
  · rw [hcase]; rfl
  · rw [hcase, ← hpath]; rfl

/-- C6 amended, witnessed on the six-deep fallback scenario: node 7 sits six
id-less levels below the `section` with id `main`, no strategy applies, and
generation succeeds with the fallback candidate anchored at that section. -/
theorem C6_witness :
    (XPathGenerator.generateFallbackXPath chainDoc 7
      = "/" ++ String.intercalate ("/")
          (fallbackAnchorSeg chainDoc 1
            :: ((7 :: [6, 5, 4, 3, 2]).reverse.map (fallbackSeg chainDoc))))
    ∧ (XPathGenerator.generateXPath chainDoc okAnalyze [] (realFallback chainDoc)
        [] 0 (some 7)).1.success = true
    ∧ (XPathGenerator.generateXPath chainDoc okAnalyze [] (realFallback chainDoc)
        [] 0 (some 7)).1.primary
      = some { strategy := "fallback"
               xpath := "/" ++ String.intercalate ("/")
                 (fallbackAnchorSeg chainDoc 1
                   :: ((7 :: [6, 5, 4, 3, 2]).reverse.map (fallbackSeg chainDoc)))
               score := 1
               priority := 0 } :=
  C6_amended chainDoc okAnalyze [] 0 7 1 [6, 5, 4, 3, 2] ()
    (by decide) (by decide) (by decide) (by decide) (by decide) rfl (by decide)

/-- C10: with the element's real fallback constructor — which never throws in
the embedding — the fallback expression always has positive length (when the
ancestor walk yields no segments it is still the tag-only `//tag` form), so
after strategy failure the coordinator always reaches the fallback success
result: `success = true`, strategy name `fallback`, score 1, and never the
terminal `success = false` report, which is reachable only through a throwing
fallback construction. -/
theorem C10_fallback_reachability {α : Type} (d : Doc)
    (analyze : Node → Except JsErr α) (strategies : List (Strategy α))
    (now : Nat) (e : Node) (a : α)
    (htag : d.tag e ≠ "") (hana : analyze e = Except.ok a)
    (hfail : (StrategyManager.generateXPath d strategies e (some a)).success = false) :
    0 < (XPathGenerator.generateFallbackXPath d e).length
    ∧ (XPathGenerator.generateXPath d analyze strategies (realFallback d)
        [] now (some e)).1.success = true
    ∧ (XPathGenerator.generateXPath d analyze strategies (realFallback d)
        [] now (some e)).1.primary
      = some { strategy := "fallback"
               xpath := XPathGenerator.generateFallbackXPath d e
               score := 1
               priority := 0 }
    ∧ (XPathGenerator.generateXPath d analyze strategies (realFallback d)
        [] now (some e)).1.error ≠ some terminalFailureMsg := by
  have hcase := coordinator_fallback_case d analyze strategies now e a htag hana hfail
  refine ⟨fallback_len_pos d e, ?_, ?_, ?_⟩
  · rw [hcase]; rfl
  · rw [hcase]; rfl
  · rw [hcase]
    simp [XPathGenerator.fallbackResult]

/-- C10 witnessed: a plain tag-only `div` on which no strategy applies still
generates successfully through the position-indexed fallback. -/
theorem C10_witness :
    0 < (XPathGenerator.generateFallbackXPath plainDoc 1).length
    ∧ (XPathGenerator.generateXPath plainDoc okAnalyze [] (realFallback plainDoc)
        [] 0 (some 1)).1.success = true
    ∧ (XPathGenerator.generateXPath plainDoc okAnalyze [] (realFallback plainDoc)
        [] 0 (some 1)).1.primary
      = some { strategy := "fallback"
               xpath := XPathGenerator.generateFallbackXPath plainDoc 1
               score := 1
               priority := 0 }
    ∧ (XPathGenerator.generateXPath plainDoc okAnalyze [] (realFallback plainDoc)
        [] 0 (some 1)).1.error ≠ some terminalFailureMsg :=
  C10_fallback_reachability plainDoc okAnalyze [] 0 1 ()
    (by decide) rfl (by decide)

/-- C3 witnessed: with the throwing strategy registered, the manager's result
equals the result of the empty registry — nothing was lost or aborted. -/
theorem C3_witness :
    StrategyManager.generateXPath plainDoc [badStrategy] 1 (none : Option Unit)
      = StrategyManager.generateXPath plainDoc [] 1 (none : Option Unit) :=
  C3_per_strategy_containment plainDoc 1 none [] [] badStrategy
    (Or.inl ⟨{ msg := "boom" }, rfl⟩)

/-- C8 witnessed on a concrete element whose class list holds the
machine-generated token `_abcde1`: the attribute-named strategy's candidate
is scored 100 − 50 = 50. -/
theorem C8_witness :
    (⟨"attribute", "//x", 50, 100⟩ : Candidate).score
      = 100 - (if hasRandomClasses randClassDoc 1 && (attrStub.name == "attribute")
          then 50 else 0)
    ∧ (⟨"attribute", "//x", 50, 100⟩ : Candidate).strategy = attrStub.name :=
  C8_random_class_penalty randClassDoc 1
    (StrategyManager.buildContext randClassDoc 1 (none : Option Unit)) attrStub
    ⟨"attribute", "//x", 50, 100⟩ 100 (by decide) rfl

theorem cacheGet_single {α : Type} (k : String) (v : CacheEntry α) :
    cacheGet [(k, v)] k = some v := by
  simp [cacheGet, List.find?]

/-- When the cache holds an entry under the element's fingerprint that is
still within the TTL, the coordinator returns its data unchanged: neither
the analyzer nor any strategy is consulted. -/
theorem generateXPath_cache_hit {α : Type} (d : Doc)
    (analyze : Node → Except JsErr α) (strategies : List (Strategy α))
    (fb : Node → Except JsErr String) (cache : Cache α) (now : Nat) (e : Node)
    (entry : CacheEntry α)
    (htag : d.tag e ≠ "")
    (hget : cacheGet cache (XPathGenerator.generateCacheKey d e) = some entry)
    (httl : now - entry.timestamp < 10000) :
    XPathGenerator.generateXPath d analyze strategies fb cache now (some e)
      = (entry.data, cache) := by
  simp only [XPathGenerator.generateXPath]
  rw [if_neg htag, hget]
  dsimp only
  rw [if_pos httl]

/-- A successful strategy run from an empty cache returns the enhanced result
and caches it under the element's fingerprint with the call's timestamp. -/
theorem generateXPath_success_case {α : Type} (d : Doc)
    (analyze : Node → Except JsErr α) (strategies : List (Strategy α))
    (fb : Node → Except JsErr String) (now : Nat) (e : Node) (a : α)
    (htag : d.tag e ≠ "") (hana : analyze e = Except.ok a)
    (hsm : (StrategyManager.generateXPath d strategies e (some a)).success = true) :
    XPathGenerator.generateXPath d analyze strategies fb [] now (some e)
      = (XPathGenerator.enhancedResult d e a
           (StrategyManager.generateXPath d strategies e (some a)) now,
         [(XPathGenerator.generateCacheKey d e,
           { data := XPathGenerator.enhancedResult d e a
               (StrategyManager.generateXPath d strategies e (some a)) now,
             timestamp := now })]) := by
  have hred : XPathGenerator.generateXPath d analyze strategies fb [] now (some e)
      = if d.tag e = "" then (XPathGenerator.invalidResult now, ([] : Cache α))
        else XPathGenerator.generateFresh d analyze strategies fb
          [] now e (XPathGenerator.generateCacheKey d e) := rfl
  rw [hred, if_neg htag]
  simp only [XPathGenerator.generateFresh]
  rw [hana]
  dsimp only
  rw [if_pos hsm]
  simp [XPathGenerator.cleanupCache, cacheSet, Nat.sub_self]

/-- C7 amended: for a node on which some strategy produced a candidate — the
case the coordinator caches — a first call from an empty cache at `t0` and a
second call at `t1` within the 10000-unit TTL, with no document change,
return bit-identical results (including the first call's timestamp), and the
second call performs no analysis or strategy re-execution at all: its result
is the same for EVERY analyzer, registry and fallback it might be given,
because it is served from the fingerprint-keyed cache.  (Fallback and
failure results are not cached — `C7_counterexample`.) -/
theorem C7_amended {α : Type} (d : Doc) (analyze analyze2 : Node → Except JsErr α)
    (strategies strategies2 : List (Strategy α))
    (fb fb2 : Node → Except JsErr String)
    (t0 t1 : Nat) (e : Node) (a : α)
    (htag : d.tag e ≠ "") (hana : analyze e = Except.ok a)
    (hsm : (StrategyManager.generateXPath d strategies e (some a)).success = true)
    (httl : t1 - t0 < 10000) :
    (XPathGenerator.generateXPath d analyze2 strategies2 fb2
        (XPathGenerator.generateXPath d analyze strategies fb [] t0 (some e)).2
        t1 (some e)).1
      = (XPathGenerator.generateXPath d analyze strategies fb [] t0 (some e)).1 := by
  rw [generateXPath_success_case d analyze strategies fb t0 e a htag hana hsm]
  rw [generateXPath_cache_hit d analyze2 strategies2 fb2 _ t1 e
    { data := XPathGenerator.enhancedResult d e a
        (StrategyManager.generateXPath d strategies e (some a)) t0,
      timestamp := t0 }
    htag (cacheGet_single _ _) (by simpa using httl)]

/-- C7 amended, witnessed: after a successful text-strategy run at time 0, a
second call at time 5 — even with a throwing analyzer, an empty registry and
a throwing fallback — returns the bit-identical first result from the
cache. -/
theorem C7_witness :
    (XPathGenerator.generateXPath uniqueDoc throwingAnalyze []
        (fun _ => Except.error { msg := "x" })
        (XPathGenerator.generateXPath uniqueDoc okAnalyze [textStrategy]
          (realFallback uniqueDoc) [] 0 (some 1)).2
        5 (some 1)).1
      = (XPathGenerator.generateXPath uniqueDoc okAnalyze [textStrategy]
          (realFallback uniqueDoc) [] 0 (some 1)).1 :=
  C7_amended uniqueDoc okAnalyze throwingAnalyze [textStrategy] []
    (realFallback uniqueDoc) (fun _ => Except.error { msg := "x" }) 0 5 1 ()
    (by decide) rfl (by decide) (by decide)

end XPE
